import Mathlib

/-!
# External work-request API: auth gate, rate limiter and listing query builder

A shallow embedding of `src/lib/apiAuth.js` and of the listing handler
`src/app/api/external/work-requests/route.js`.

Conventions of the embedding.

* JavaScript strings are Lean strings; the helpers work on their character
  lists so that every definition is structurally recursive and evaluates.
* `null` / `undefined` are `Option.none`.
* `NaN` is `Option.none` in the result of `parseInt` and of arithmetic on it.
* Times, window lengths and counters are natural numbers, `Math.floor(a / b)`
  on them is natural-number division; integers coming out of `parseInt` are
  exact (the IEEE rounding of literals beyond `2^53` is not modelled).
* The module-level `Map` of the rate limiter is an association list in
  insertion order and is threaded through `checkRateLimit` explicitly, together
  with the clock reading and the outcome of the `Math.random() < 0.01` test.
-/

set_option maxRecDepth 100000

namespace VideoApi

/-! ## JavaScript primitives -/

/-- Substring test on character lists (`pat` occurs somewhere in the list). -/
def includesChars (pat : List Char) : List Char → Bool
  | [] => pat.isPrefixOf []
  | c :: cs => pat.isPrefixOf (c :: cs) || includesChars pat cs

/-- `String.prototype.includes`. -/
def jsIncludes (s pat : String) : Bool :=
  includesChars pat.data s.data

/-- The `StrWhiteSpaceChar` class of ECMAScript: white space and line terminators
skipped by `parseInt` before the number. -/
def isStrWhiteSpace (c : Char) : Bool :=
  let n := c.toNat
  n = 0x09 || n = 0x0A || n = 0x0B || n = 0x0C || n = 0x0D || n = 0x20 ||
  n = 0xA0 || n = 0x1680 || (0x2000 ≤ n && n ≤ 0x200A) || n = 0x2028 ||
  n = 0x2029 || n = 0x202F || n = 0x205F || n = 0x3000 || n = 0xFEFF

/-- Value of a character as a digit (`0-9`, `a-z`, `A-Z`), if it is one. -/
def digitValue (c : Char) : Option Nat :=
  let n := c.toNat
  if 48 ≤ n ∧ n ≤ 57 then some (n - 48)
  else if 97 ≤ n ∧ n ≤ 122 then some (n - 97 + 10)
  else if 65 ≤ n ∧ n ≤ 90 then some (n - 65 + 10)
  else none

/-- Value of a character as a digit of the given radix. -/
def radixDigit (radix : Nat) (c : Char) : Option Nat :=
  match digitValue c with
  | some d => if d < radix then some d else none
  | none => none

/-- The values of the longest prefix made of digits of the radix. -/
def leadingDigits (radix : Nat) : List Char → List Nat
  | [] => []
  | c :: cs =>
    match radixDigit radix c with
    | some d => d :: leadingDigits radix cs
    | none => []

/-- The number written by a list of digit values, most significant first. -/
def digitsValue (radix : Nat) (ds : List Nat) : Nat :=
  ds.foldl (fun acc d => acc * radix + d) 0

/-- Drops the leading `StrWhiteSpaceChar`s. -/
def dropWhiteSpace : List Char → List Char
  | [] => []
  | c :: cs => if isStrWhiteSpace c then dropWhiteSpace cs else c :: cs

/-- Splits an optional sign off: the flag says the sign is `-`. -/
def takeSign : List Char → Bool × List Char
  | '-' :: cs => (true, cs)
  | '+' :: cs => (false, cs)
  | cs => (false, cs)

/-- Removes a `0x` / `0X` prefix when hexadecimal detection is on. -/
def takeHexPrefix : List Char → Option (List Char)
  | '0' :: 'x' :: cs => some cs
  | '0' :: 'X' :: cs => some cs
  | _ => none

/-- `parseInt(string, radix)` of ECMAScript on character lists; radix `0`
stands for an absent radix. The result `none` is `NaN`. The result is the exact
integer the digits write: the rounding to an IEEE double, and the infinities
for very long digit strings, are not modelled. -/
def parseIntChars (cs : List Char) (radix : Nat) : Option Int :=
  let (neg, body) := takeSign (dropWhiteSpace cs)
  if radix ≠ 0 ∧ (radix < 2 ∨ 36 < radix) then none
  else
    let stripPrefix : Bool := radix = 0 ∨ radix = 16
    let r0 := if radix = 0 then 10 else radix
    let (r, body) :=
      match (if stripPrefix then takeHexPrefix body else none) with
      | some rest => (16, rest)
      | none => (r0, body)
    match leadingDigits r body with
    | [] => none
    | d :: ds =>
      let v : Int := (digitsValue r (d :: ds) : Nat)
      some (if neg then -v else v)

/-- `parseInt(s, radix)`; radix `0` stands for an absent radix. -/
def jsParseInt (s : String) (radix : Nat) : Option Int :=
  parseIntChars s.data radix

/-- `parseInt(x)` where `x` may be `undefined`: the argument is first turned
into a string, and `"undefined"` has no digits. -/
def jsParseIntOpt (s : Option String) (radix : Nat) : Option Int :=
  match s with
  | some t => jsParseInt t radix
  | none => jsParseInt "undefined" radix

/-- Decimal digits of a natural number, most significant first, with fuel. -/
def decimalAux : Nat → Nat → List Char → List Char
  | 0, _, acc => acc
  | fuel + 1, n, acc =>
    if n < 10 then Char.ofNat (48 + n) :: acc
    else decimalAux fuel (n / 10) (Char.ofNat (48 + n % 10) :: acc)

/-- Number-to-string conversion of a non-negative integer (as done by a
template literal for integers below `10^21`). -/
def natToChars (n : Nat) : List Char := decimalAux (n + 1) n []

/-- Number-to-string conversion of a non-negative integer. -/
def natToString (n : Nat) : String := String.mk (natToChars n)

/-- Splits a character list at every occurrence of the separator. -/
def splitOnChar (sep : Char) : List Char → List (List Char)
  | [] => [[]]
  | c :: cs =>
    match splitOnChar sep cs with
    | [] => [[]]
    | seg :: rest => if c = sep then [] :: seg :: rest else (c :: seg) :: rest

/-- `s.split(sep)` for a one-character separator. -/
def jsSplit (s : String) (sep : Char) : List String :=
  (splitOnChar sep s.data).map String.mk

/-- Truthiness of a string-or-undefined value: defined and non-empty. -/
def truthy : Option String → Bool
  | some s => s ≠ ""
  | none => false

/-- The `||` operator on string-or-undefined values. -/
def jsOr (a b : Option String) : Option String :=
  if truthy a then a else b

/-- The `||` operator with a string literal on the right: the result is a string. -/
def jsOrStr (a : Option String) (b : String) : String :=
  match a with
  | some s => if s ≠ "" then s else b
  | none => b

/-! ## `src/lib/apiAuth.js`: the auth gate -/

/-- Process configuration read by the auth gate (`process.env`). -/
structure Env where
  VIDEO_ARCHIVING_API_KEY : Option String
  EXTERNAL_API_KEY : Option String
  NODE_ENV : Option String
  deriving DecidableEq

/-- The request headers the auth gate reads (`request.headers.get`, `null` when absent). -/
structure Headers where
  host : Option String
  referer : Option String
  xApiKey : Option String
  deriving DecidableEq

/-- Result object of `validateApiKey`: `valid` and, when invalid, `error`. -/
structure AuthResult where
  valid : Bool
  error : Option String
  deriving DecidableEq

/-- The loopback test of `validateApiKey` on the host and referer headers. -/
def isLocalhost (h : Headers) : Bool :=
  let host := jsOrStr h.host ""
  let referer := jsOrStr h.referer ""
  jsIncludes host "localhost" || jsIncludes host "127.0.0.1" ||
  jsIncludes referer "localhost" || jsIncludes referer "127.0.0.1"

/-- The function `validateApiKey(request)` of `apiAuth.js`. -/
def validateApiKey (env : Env) (h : Headers) : AuthResult :=
  let expectedKey := jsOr env.VIDEO_ARCHIVING_API_KEY env.EXTERNAL_API_KEY
  let isDevelopment : Bool := env.NODE_ENV ≠ some "production"
  if isDevelopment && isLocalhost h then
    { valid := true, error := none }
  else if !truthy expectedKey then
    { valid := false, error := some "API key not configured" }
  else
    let apiKey := h.xApiKey
    if !truthy apiKey then
      { valid := false,
        error := some "Unauthorized - API key required. Provide X-API-Key header." }
    else if apiKey ≠ expectedKey then
      { valid := false, error := some "Unauthorized - Invalid API key" }
    else
      { valid := true, error := none }

/-- The expected key in the words of the specification: the first non-empty of
`VIDEO_ARCHIVING_API_KEY` and `EXTERNAL_API_KEY`, if there is one. -/
def expectedKeySpec (env : Env) : Option String :=
  match env.VIDEO_ARCHIVING_API_KEY with
  | some k =>
    if k ≠ "" then some k
    else
      match env.EXTERNAL_API_KEY with
      | some k2 => if k2 ≠ "" then some k2 else none
      | none => none
  | none =>
    match env.EXTERNAL_API_KEY with
    | some k2 => if k2 ≠ "" then some k2 else none
    | none => none

/-- The host or referer header contains `localhost` or `127.0.0.1`, in the
words of the specification. -/
def loopbackSpec (h : Headers) : Bool :=
  let has (v : Option String) (lit : String) : Bool :=
    match v with
    | some s => jsIncludes s lit
    | none => false
  has h.host "localhost" || has h.host "127.0.0.1" ||
  has h.referer "localhost" || has h.referer "127.0.0.1"

/-- The four-step policy of the auth gate in the words of the specification. -/
def validateApiKeyPolicy (env : Env) (h : Headers) : AuthResult :=
  if env.NODE_ENV ≠ some "production" ∧ loopbackSpec h = true then
    { valid := true, error := none }
  else
    match expectedKeySpec env with
    | none => { valid := false, error := some "API key not configured" }
    | some expected =>
      match h.xApiKey with
      | none =>
        { valid := false,
          error := some "Unauthorized - API key required. Provide X-API-Key header." }
      | some supplied =>
        if supplied = "" then
          { valid := false,
            error := some "Unauthorized - API key required. Provide X-API-Key header." }
        else if supplied = expected then { valid := true, error := none }
        else { valid := false, error := some "Unauthorized - Invalid API key" }

/-! ## `src/lib/apiAuth.js`: the rate limiter -/

/-- The module-level `rateLimitStore`: a `Map` from bucket key to count, as an
association list in insertion order. -/
abbrev Store := List (String × Nat)

/-- `Map.prototype.get`. -/
def Store.get : Store → String → Option Nat
  | [], _ => none
  | (k, v) :: rest, key => if k = key then some v else Store.get rest key

/-- `Map.prototype.set`: overwrites the entry of the key in place, or appends. -/
def Store.set : Store → String → Nat → Store
  | [], key, v => [(key, v)]
  | (k, v0) :: rest, key, v =>
    if k = key then (k, v) :: rest else (k, v0) :: Store.set rest key v

/-- Result object of `checkRateLimit`. -/
structure RateLimitResult where
  allowed : Bool
  remaining : Int
  resetAt : Nat
  deriving DecidableEq

/-- The bucket key of an identifier and a window index (the template literal
with the two joined by an underscore). -/
def bucketKey (identifier : String) (windowIndex : Nat) : String :=
  identifier ++ "_" ++ natToString windowIndex

/-- The element at index 1 of `k.split('_')`, `undefined` when there is none. -/
def splitSecond (k : String) : Option String :=
  (jsSplit k '_')[1]?

/-- The start time the cleanup computes for a key:
`parseInt(k.split('_')[1]) * windowMs` (`none` is `NaN`). -/
def keyTimestamp (k : String) (windowMs : Nat) : Option Int :=
  match jsParseIntOpt (splitSecond k) 0 with
  | some n => some (n * (windowMs : Int))
  | none => none

/-- The test `timestamp < cutoff` of the cleanup loop; false on `NaN`. -/
def isStale (k : String) (windowMs : Nat) (cutoff : Int) : Bool :=
  match keyTimestamp k windowMs with
  | some t => decide (t < cutoff)
  | none => false

/-- The cleanup loop of `checkRateLimit`: deletes every key whose computed
start time is below `now - 10 * 60 * 1000`. -/
def cleanup (st : Store) (windowMs now : Nat) : Store :=
  let cutoff : Int := (now : Int) - (10 * 60 * 1000)
  st.filter (fun e => !isStale e.1 windowMs cutoff)

/-- The function `checkRateLimit(identifier, maxRequests, windowMs)`, with the
store, the clock reading `now` and the outcome `draw` of `Math.random() < 0.01`
made explicit. Returns the result object and the store afterwards. -/
def checkRateLimit (st : Store) (now : Nat) (draw : Bool)
    (identifier : String) (maxRequests windowMs : Nat) : RateLimitResult × Store :=
  let key := bucketKey identifier (now / windowMs)
  let current := (st.get key).getD 0
  if current ≥ maxRequests then
    ({ allowed := false, remaining := 0, resetAt := (now / windowMs + 1) * windowMs }, st)
  else
    let st1 := st.set key (current + 1)
    let st2 := if draw then cleanup st1 windowMs now else st1
    ({ allowed := true,
       remaining := (maxRequests : Int) - (current : Int) - 1,
       resetAt := (now / windowMs + 1) * windowMs }, st2)

/-- One call in a run of the limiter: the clock reading and the cleanup draw. -/
structure Tick where
  now : Nat
  draw : Bool
  deriving DecidableEq

/-- Sequential calls of `checkRateLimit` for one identifier, one call per tick:
the results in call order and the final store. -/
def runChecks (identifier : String) (maxRequests windowMs : Nat) :
    Store → List Tick → List RateLimitResult × Store
  | st, [] => ([], st)
  | st, t :: ts =>
    let r := checkRateLimit st t.now t.draw identifier maxRequests windowMs
    let rest := runChecks identifier maxRequests windowMs r.2 ts
    (r.1 :: rest.1, rest.2)

/-- One call of `checkRateLimit` by any client, with all its inputs. -/
structure Call where
  identifier : String
  maxRequests : Nat
  now : Nat
  draw : Bool
  deriving DecidableEq

/-- The store after a history of calls with one window length. -/
def runCalls (windowMs : Nat) : Store → List Call → Store
  | st, [] => st
  | st, c :: cs =>
    runCalls windowMs
      (checkRateLimit st c.now c.draw c.identifier c.maxRequests windowMs).2 cs

/-! ## `src/app/api/external/work-requests/route.js`: the listing query builder -/

/-- A value bound to a positional placeholder of a query. -/
inductive SqlValue where
  | num (n : Int)
  | text (s : String)
  | nan
  deriving DecidableEq

/-- A number that may be `NaN`, as a bound value. -/
def SqlValue.ofNumber : Option Int → SqlValue
  | some n => SqlValue.num n
  | none => SqlValue.nan

/-- The query-string parameters the listing handler reads
(`searchParams.get`, `null` when absent). -/
structure ListParams where
  search : Option String
  filter : Option String
  status : Option String
  limit : Option String
  offset : Option String
  deriving DecidableEq

/-- The `search` constant of the handler:
`searchParams.get('search') || searchParams.get('filter') || ''`. -/
def searchOf (p : ListParams) : String :=
  jsOrStr (jsOr p.search p.filter) ""

/-- The `limit` constant of the handler:
`Math.min(parseInt(searchParams.get('limit') || '100', 10), 500)`; `none` is `NaN`. -/
def effectiveLimit (limit : Option String) : Option Int :=
  match jsParseInt (jsOrStr limit "100") 10 with
  | some n => some (min n 500)
  | none => none

/-- The `offset` constant of the handler:
`parseInt(searchParams.get('offset') || '0', 10)`; `none` is `NaN`. -/
def effectiveOffset (offset : Option String) : Option Int :=
  jsParseInt (jsOrStr offset "0") 10

/-- The three mutable variables of the query construction. -/
structure Builder where
  whereClauses : List String
  params : List SqlValue
  paramIndex : Nat
  deriving DecidableEq

/-- A positional placeholder: a dollar sign and the index. -/
def placeholder (n : Nat) : String := "$" ++ natToString n

/-- The predicate text pushed for a search that `parseInt` reads as a number. -/
def searchIdClause (i : Nat) : String :=
  "(wr.id = " ++ placeholder i ++ " OR wr.address ILIKE " ++ placeholder (i + 1) ++
  " OR wr.description ILIKE " ++ placeholder (i + 1) ++
  " OR ct.type_name ILIKE " ++ placeholder (i + 1) ++ ")"

/-- The predicate text pushed for a search that `parseInt` reads as `NaN`. -/
def searchTextClause (i : Nat) : String :=
  "(wr.address ILIKE " ++ placeholder i ++ " OR wr.description ILIKE " ++ placeholder i ++
  " OR ct.type_name ILIKE " ++ placeholder i ++ ")"

/-- The predicate text pushed for a status that `parseInt` reads as a number. -/
def statusIdClause (i : Nat) : String := "wr.status_id = " ++ placeholder i

/-- The predicate text pushed for a status that `parseInt` reads as `NaN`. -/
def statusNameClause (i : Nat) : String := "s.name ILIKE " ++ placeholder i

/-- The block `if (search) ...` of the handler. -/
def addSearch (search : String) (b : Builder) : Builder :=
  if search ≠ "" then
    match jsParseInt search 10 with
    | some searchNum =>
      { whereClauses := b.whereClauses ++ [searchIdClause b.paramIndex],
        params := b.params ++ [SqlValue.num searchNum, SqlValue.text ("%" ++ search ++ "%")],
        paramIndex := b.paramIndex + 2 }
    | none =>
      { whereClauses := b.whereClauses ++ [searchTextClause b.paramIndex],
        params := b.params ++ [SqlValue.text ("%" ++ search ++ "%")],
        paramIndex := b.paramIndex + 1 }
  else b

/-- The block `if (status) ...` of the handler. -/
def addStatus (status : Option String) (b : Builder) : Builder :=
  match status with
  | none => b
  | some st =>
    if st ≠ "" then
      match jsParseInt st 10 with
      | some statusNum =>
        { whereClauses := b.whereClauses ++ [statusIdClause b.paramIndex],
          params := b.params ++ [SqlValue.num statusNum],
          paramIndex := b.paramIndex + 1 }
      | none =>
        { whereClauses := b.whereClauses ++ [statusNameClause b.paramIndex],
          params := b.params ++ [SqlValue.text ("%" ++ st ++ "%")],
          paramIndex := b.paramIndex + 1 }
    else b

/-- The builder state after both filter blocks, from the initial
`whereClauses = []`, `params = []`, `paramIndex = 1`. -/
def buildFilters (search : String) (status : Option String) : Builder :=
  addStatus status (addSearch search { whereClauses := [], params := [], paramIndex := 1 })

/-- The `whereClause` constant: the predicates joined by `AND` behind `WHERE`,
or the empty string when there is none. -/
def whereClauseOf (whereClauses : List String) : String :=
  if whereClauses.length > 0 then "WHERE " ++ " AND ".intercalate whereClauses else ""

/-- The `countQuery` template literal. -/
def countQueryText (whereClause : String) : String :=
  "\n            SELECT COUNT(*) as total" ++
  "\n            FROM work_requests wr" ++
  "\n            " ++ whereClause ++
  "\n        "

/-- The `dataQuery` template literal. -/
def dataQueryText (whereClause : String) (paramIndex : Nat) : String :=
  "\n            SELECT " ++
  "\n                wr.id," ++
  "\n                wr.request_date," ++
  "\n                wr.address," ++
  "\n                wr.description," ++
  "\n                wr.zone_id," ++
  "\n                wr.division_id," ++
  "\n                wr.town_id," ++
  "\n                ST_Y(wr.geo_tag) as latitude," ++
  "\n                ST_X(wr.geo_tag) as longitude," ++
  "\n                s.name as status_name," ++
  "\n                ct.type_name as complaint_type," ++
  "\n                t.town as town_name," ++
  "\n                d.title as district_name," ++
  "\n                COALESCE(u.name, ag.name, sm.name) as creator_name," ++
  "\n                wr.created_date" ++
  "\n            FROM work_requests wr" ++
  "\n            LEFT JOIN complaint_types ct ON wr.complaint_type_id = ct.id" ++
  "\n            LEFT JOIN status s ON wr.status_id = s.id" ++
  "\n            LEFT JOIN town t ON wr.town_id = t.id" ++
  "\n            LEFT JOIN district d ON t.district_id = d.id" ++
  "\n            LEFT JOIN users u ON wr.creator_type = \x27user\x27 AND wr.creator_id = u.id" ++
  "\n            LEFT JOIN agents ag ON wr.creator_type = \x27agent\x27 AND wr.creator_id = ag.id" ++
  "\n            LEFT JOIN socialmediaperson sm ON wr.creator_type = \x27socialmedia\x27 AND wr.creator_id = sm.id" ++
  "\n            " ++ whereClause ++
  "\n            ORDER BY wr.created_date DESC" ++
  "\n            LIMIT " ++ placeholder paramIndex ++ " OFFSET " ++ placeholder (paramIndex + 1) ++
  "\n        "

/-- What the listing handler sends to the store and echoes: the two query
texts with their bound values, and the `limit` and `offset` of the response. -/
structure ListQuery where
  whereClause : String
  countQuery : String
  countParams : List SqlValue
  dataQuery : String
  dataParams : List SqlValue
  limit : Option Int
  offset : Option Int
  deriving DecidableEq

/-- The query construction of the listing `GET` handler, from reading the
query-string parameters to the second `client.query` call. -/
def listQuery (p : ListParams) : ListQuery :=
  let search := searchOf p
  let status := p.status
  let limit := effectiveLimit p.limit
  let offset := effectiveOffset p.offset
  let b := buildFilters search status
  let whereClause := whereClauseOf b.whereClauses
  { whereClause := whereClause,
    countQuery := countQueryText whereClause,
    countParams := b.params,
    dataQuery := dataQueryText whereClause b.paramIndex,
    dataParams := b.params ++ [SqlValue.ofNumber limit, SqlValue.ofNumber offset],
    limit := limit,
    offset := offset }

/-! ### Table aliases of a query text -/

/-- Characters of an SQL identifier. -/
def isIdentChar (c : Char) : Bool :=
  c.isAlphanum || c = '_'

/-- Scanner for qualified column references: `cur` is the identifier read so
far (reversed); an identifier directly followed by a dot is a qualifier. -/
def qualifiersAux : List Char → List Char → List String
  | [], _ => []
  | c :: cs, cur =>
    if c = '.' then
      (if cur.isEmpty then [] else [String.mk cur.reverse]) ++ qualifiersAux cs []
    else if isIdentChar c then qualifiersAux cs (c :: cur)
    else qualifiersAux cs []

/-- The table aliases a piece of SQL text refers to, as qualifiers `alias.column`. -/
def referencedAliases (sql : String) : List String :=
  (qualifiersAux sql.data []).eraseDups

/-- Splits a text into its words (maximal runs without blank or newline);
`cur` is the word read so far (reversed). -/
def wordsAux : List Char → List Char → List String
  | [], cur => if cur.isEmpty then [] else [String.mk cur.reverse]
  | c :: cs, cur =>
    if c = ' ' ∨ c = '\n' then
      (if cur.isEmpty then [] else [String.mk cur.reverse]) ++ wordsAux cs []
    else wordsAux cs (c :: cur)

/-- The aliases introduced by the words of a query: the second word after each
`FROM` or `JOIN` (table name, then alias). -/
def boundAliasesWords : List String → List String
  | [] => []
  | w :: rest =>
    (if w = "FROM" ∨ w = "JOIN" then
      match rest with
      | _ :: a :: _ => [a]
      | _ => []
     else []) ++ boundAliasesWords rest

/-- The table aliases the `FROM` / `JOIN` clauses of a query text introduce. -/
def boundAliases (sql : String) : List String :=
  boundAliasesWords (wordsAux sql.data [])

/-- Every alias the text refers to is introduced by its `FROM` / `JOIN` clauses. -/
def aliasesBound (sql : String) : Bool :=
  (referencedAliases sql).all (fun a => (boundAliases sql).contains a)

/-- The notion "parses fully as an integer" of the specification: an optional
sign followed by one or more decimal digits and nothing else. -/
def isIntegerLiteral (s : String) : Bool :=
  let body := (takeSign s.data).2
  !body.isEmpty && body.all (fun c => 48 ≤ c.toNat && c.toNat ≤ 57)

/-! ## Notions used to state the properties -/

/-- A decimal digit character. -/
def IsDecDigit (c : Char) : Prop := 48 ≤ c.toNat ∧ c.toNat ≤ 57

/-- The digit values of a list of decimal digit characters. -/
def charValues (cs : List Char) : List Nat := cs.map (fun c => c.toNat - 48)

/-- The range `[0, 500]` the specification gives for the effective limit;
`NaN` is not in it. -/
def limitInRange (limit : Option Int) : Bool :=
  match limit with
  | some n => decide (0 ≤ n) && decide (n ≤ 500)
  | none => false

/-- No expected key is configured: both variables are unset or empty. -/
def noKeyConfigured (env : Env) : Bool :=
  (env.VIDEO_ARCHIVING_API_KEY = none || env.VIDEO_ARCHIVING_API_KEY = some "") &&
  (env.EXTERNAL_API_KEY = none || env.EXTERNAL_API_KEY = some "")

/-- A run of 99 calls without cleanup, a 100th call with cleanup and a 101st
call, all at one clock reading. -/
def burstTicks : List Tick :=
  List.replicate 99 { now := 1700000000000, draw := false } ++
    [{ now := 1700000000000, draw := true }, { now := 1700000000000, draw := false }]

/-- A listing request with the search `pipe` and nothing else. -/
def pipeSearch : ListParams :=
  { search := some "pipe", filter := none, status := none, limit := none, offset := none }

/-- A listing request with the given limit and nothing else. -/
def onlyLimit (limit : String) : ListParams :=
  { search := none, filter := none, status := none, limit := some limit, offset := none }

/-- How a filter value is treated by the builder: not at all, as a number, or
as text. -/
inductive FilterKind where
  | absent
  | numeric
  | text
  deriving DecidableEq

/-- The treatment of a filter value: absent when `null` or empty, numeric when
`parseInt` reads a number, text otherwise. -/
def filterKind (v : Option String) : FilterKind :=
  match v with
  | none => FilterKind.absent
  | some s =>
    if s = "" then FilterKind.absent
    else if (jsParseInt s 10).isSome then FilterKind.numeric
    else FilterKind.text

/-- The predicate texts and the next placeholder index for a treatment of the
search and of the status. -/
def clausesOfKinds (sk tk : FilterKind) : List String × Nat :=
  let s : List String × Nat :=
    match sk with
    | FilterKind.absent => ([], 1)
    | FilterKind.numeric => ([searchIdClause 1], 3)
    | FilterKind.text => ([searchTextClause 1], 2)
  match tk with
  | FilterKind.absent => s
  | FilterKind.numeric => (s.1 ++ [statusIdClause s.2], s.2 + 1)
  | FilterKind.text => (s.1 ++ [statusNameClause s.2], s.2 + 1)

/-- The results the fixed window prescribes for `n` calls on a bucket that
already counts `c` requests. -/
def windowResults (maxRequests resetAt : Nat) : Nat → Nat → List RateLimitResult
  | _, 0 => []
  | c, n + 1 =>
    (if c < maxRequests then
      { allowed := true, remaining := (maxRequests : Int) - (c : Int) - 1, resetAt := resetAt }
     else { allowed := false, remaining := 0, resetAt := resetAt }) ::
    windowResults maxRequests resetAt (if c < maxRequests then c + 1 else c) n

/-! ## The request handlers of get-by-id, verify, before-content and videos -/

/-- Interpolation of a possibly `null` value into a template literal. -/
def templateStr : Option String → String
  | some s => s
  | none => "null"

/-- A value of a row returned by the store: `null`, a number, a text, or an
aggregated JSON array given by the JSON texts of its elements. -/
inductive Cell where
  | null
  | num (n : Int)
  | text (s : String)
  | items (elems : List String)
  deriving DecidableEq

/-- A row returned by the store: its columns in order. -/
abbrev Row := List (String × Cell)

/-- Property read `row.column` (`undefined` when the row has no such column). -/
def Row.get : Row → String → Option Cell
  | [], _ => none
  | (k, v) :: rest, col => if k = col then some v else Row.get rest col

/-- What `client.query` does: resolves with rows, or rejects. -/
inductive QueryResult where
  | rows (rs : List Row)
  | failed
  deriving DecidableEq

/-- The backing store as the handlers see it: whether `connectToDatabase()`
resolves, and the outcome of `client.query(text, values)`. -/
structure Database where
  connects : Bool
  query : String → List SqlValue → QueryResult

/-- The JSON bodies the handlers answer with. -/
inductive Payload where
  | error (error : Option String)
  | workRequest (data : Row)
  | verify (existsFlag valid : Bool) (message : Option String)
      (data : Option (List (String × Option Cell)))
  | beforeContent (data : List Row) (count : Nat) (work_request_id : Int)
  | videos (success : Bool) (data : List Row)
  deriving DecidableEq

/-- A response: HTTP status and JSON body (`NextResponse.json`, status 200 when
none is given). -/
structure Response where
  status : Nat
  body : Payload
  deriving DecidableEq

/-- A JSON value as the handlers observe it. `int` is an integer number below
`10^21` in magnitude; `nonInteger` is any other number, given by its string
conversion; `composite` is an array or object, given by the result of its
string conversion (`none` when the conversion throws). -/
inductive JsonValue where
  | null
  | bool (b : Bool)
  | int (n : Int)
  | str (s : String)
  | nonInteger (text : String)
  | composite (text : Option String)
  deriving DecidableEq

/-- Number-to-string conversion of an integer. -/
def intToString : Int → String
  | Int.ofNat m => natToString m
  | Int.negSucc m => "-" ++ natToString (m + 1)

/-- Truthiness of a JSON value. -/
def jsTruthy : JsonValue → Bool
  | JsonValue.null => false
  | JsonValue.bool b => b
  | JsonValue.int n => n ≠ 0
  | JsonValue.str s => s ≠ ""
  | JsonValue.nonInteger _ => true
  | JsonValue.composite _ => true

/-- The abstract operation `ToString` on a JSON value; `none` when it throws. -/
def jsToString : JsonValue → Option String
  | JsonValue.null => some "null"
  | JsonValue.bool true => some "true"
  | JsonValue.bool false => some "false"
  | JsonValue.int n => some (intToString n)
  | JsonValue.str s => some s
  | JsonValue.nonInteger t => some t
  | JsonValue.composite t => t

/-- What a handler is called with besides its own input: configuration,
headers, and the state the rate limiter reads (store, clock, cleanup draw). -/
structure RequestCtx where
  env : Env
  headers : Headers
  store : Store
  now : Nat
  draw : Bool

/-- Outcome of the first two steps of a handler. -/
inductive GateOutcome where
  | rejected (r : Response)
  | passed (rateLimitResult : RateLimitResult)
  deriving DecidableEq

/-- The first two steps of the four handlers: `validateApiKey` (401 on
failure), then `checkRateLimit(apiKey, 100, 60000)` on the `X-API-Key` header
value (429 on failure). Returns the outcome and the store afterwards. -/
def passGate (c : RequestCtx) : GateOutcome × Store :=
  let authResult := validateApiKey c.env c.headers
  if !authResult.valid then
    (GateOutcome.rejected { status := 401, body := Payload.error authResult.error }, c.store)
  else
    let apiKey := c.headers.xApiKey
    let r := checkRateLimit c.store c.now c.draw (templateStr apiKey) 100 60000
    if !r.1.allowed then
      (GateOutcome.rejected
        { status := 429, body := Payload.error (some "Rate limit exceeded") }, r.2)
    else (GateOutcome.passed r.1, r.2)

/-- The answer of the `catch` block of every handler. -/
def internalError : Response :=
  { status := 500, body := Payload.error (some "Internal server error") }

/-- The `query` template literal of the get-by-id handler. -/
def byIdQueryText : String :=
  "\n            SELECT " ++
  "\n                wr.id," ++
  "\n                wr.request_date," ++
  "\n                wr.address," ++
  "\n                wr.description," ++
  "\n                wr.zone_id," ++
  "\n                wr.division_id," ++
  "\n                wr.town_id," ++
  "\n                wr.subtown_id," ++
  "\n                ST_Y(wr.geo_tag) as latitude," ++
  "\n                ST_X(wr.geo_tag) as longitude," ++
  "\n                wr.contact_number," ++
  "\n                wr.status_id," ++
  "\n                s.name as status_name," ++
  "\n                ct.type_name as complaint_type," ++
  "\n                wr.complaint_type_id," ++
  "\n                cst.subtype_name as complaint_subtype," ++
  "\n                t.town as town_name," ++
  "\n                st.subtown as subtown_name," ++
  "\n                d.title as district_name," ++
  "\n                wr.created_date," ++
  "\n                wr.updated_date," ++
  "\n                wr.creator_id," ++
  "\n                wr.creator_type," ++
  "\n                COALESCE(u.name, ag.name, sm.name) as creator_name," ++
  "\n                wr.assigned_to," ++
  "\n                u2.name as assigned_to_name," ++
  "\n                wr.executive_engineer_id," ++
  "\n                exen.name as executive_engineer_name," ++
  "\n                wr.contractor_id," ++
  "\n                COALESCE(contractor.company_name, contractor.name) as contractor_name," ++
  "\n                (" ++
  "\n                    SELECT json_agg(" ++
  "\n                        json_build_object(" ++
  "\n                            \x27id\x27, wrl.id," ++
  "\n                            \x27latitude\x27, wrl.latitude," ++
  "\n                            \x27longitude\x27, wrl.longitude," ++
  "\n                            \x27description\x27, wrl.description" ++
  "\n                        )" ++
  "\n                    )" ++
  "\n                    FROM work_request_locations wrl" ++
  "\n                    WHERE wrl.work_request_id = wr.id" ++
  "\n                ) as additional_locations," ++
  "\n                (" ++
  "\n                    SELECT link FROM final_videos WHERE work_request_id = wr.id LIMIT 1" ++
  "\n                ) as final_video_link" ++
  "\n            FROM work_requests wr" ++
  "\n            LEFT JOIN complaint_types ct ON wr.complaint_type_id = ct.id" ++
  "\n            LEFT JOIN complaint_subtypes cst ON wr.complaint_subtype_id = cst.id" ++
  "\n            LEFT JOIN status s ON wr.status_id = s.id" ++
  "\n            LEFT JOIN town t ON wr.town_id = t.id" ++
  "\n            LEFT JOIN subtown st ON wr.subtown_id = st.id" ++
  "\n            LEFT JOIN district d ON t.district_id = d.id" ++
  "\n            LEFT JOIN users u ON wr.creator_type = \x27user\x27 AND wr.creator_id = u.id" ++
  "\n            LEFT JOIN agents ag ON wr.creator_type = \x27agent\x27 AND wr.creator_id = ag.id" ++
  "\n            LEFT JOIN socialmediaperson sm ON wr.creator_type = \x27socialmedia\x27 AND wr.creator_id = sm.id" ++
  "\n            LEFT JOIN users u2 ON wr.assigned_to = u2.id" ++
  "\n            LEFT JOIN agents exen ON wr.executive_engineer_id = exen.id" ++
  "\n            LEFT JOIN agents contractor ON wr.contractor_id = contractor.id" ++
  "\n            WHERE wr.id = $1" ++
  "\n        "

/-- The `query` template literal of the verify handler. -/
def verifyQueryText : String :=
  "\n            SELECT " ++
  "\n                wr.id," ++
  "\n                wr.address," ++
  "\n                wr.description," ++
  "\n                wr.status_id," ++
  "\n                wr.request_date," ++
  "\n                wr.created_date," ++
  "\n                s.name as status_name," ++
  "\n                ct.type_name as complaint_type" ++
  "\n            FROM work_requests wr" ++
  "\n            LEFT JOIN status s ON wr.status_id = s.id" ++
  "\n            LEFT JOIN complaint_types ct ON wr.complaint_type_id = ct.id" ++
  "\n            WHERE wr.id = $1" ++
  "\n        "

/-- The `query` template literal of the before-content handler. -/
def beforeContentQueryText : String :=
  "\n            SELECT " ++
  "\n                bc.id," ++
  "\n                bc.work_request_id," ++
  "\n                bc.description," ++
  "\n                bc.link," ++
  "\n                bc.content_type," ++
  "\n                bc.file_name," ++
  "\n                bc.file_size," ++
  "\n                bc.file_type," ++
  "\n                bc.created_at," ++
  "\n                bc.creator_id," ++
  "\n                bc.creator_type," ++
  "\n                bc.creator_name," ++
  "\n                ST_Y(bc.geo_tag) as latitude," ++
  "\n                ST_X(bc.geo_tag) as longitude" ++
  "\n            FROM before_content bc" ++
  "\n            WHERE bc.work_request_id = $1" ++
  "\n            ORDER BY bc.created_at DESC" ++
  "\n        "

/-- The `query` template literal of the videos handler. -/
def videosQueryText : String :=
  "\n            SELECT " ++
  "\n                id," ++
  "\n                link," ++
  "\n                description," ++
  "\n                file_name," ++
  "\n                file_size," ++
  "\n                file_type," ++
  "\n                created_at," ++
  "\n                creator_name" ++
  "\n            FROM videos" ++
  "\n            WHERE work_request_id = $1" ++
  "\n            ORDER BY created_at DESC" ++
  "\n        "

/-- The existence query of the before-content and videos handlers. -/
def existsQueryText : String := "SELECT id FROM work_requests WHERE id = $1"

/-- The normalisation of the get-by-id handler: a `null` column
`additional_locations` becomes the empty array. -/
def normalizeLocations (workRequest : Row) : Row :=
  workRequest.map (fun e =>
    if e.1 = "additional_locations" ∧ e.2 = Cell.null then (e.1, Cell.items []) else e)

/-- The get-by-id handler after the auth gate and the rate limiter: validation
of the path id, query, 404 when there is no row. -/
def getByIdCore (id : String) (db : Database) : Response :=
  match jsParseInt id 10 with
  | none => { status := 400, body := Payload.error (some "Invalid work request ID") }
  | some workRequestId =>
    if !db.connects then internalError
    else
      match db.query byIdQueryText [SqlValue.num workRequestId] with
      | QueryResult.failed => internalError
      | QueryResult.rows [] =>
        { status := 404, body := Payload.error (some "Work request not found") }
      | QueryResult.rows (workRequest :: _) =>
        { status := 200, body := Payload.workRequest (normalizeLocations workRequest) }

/-- The handler `GET /api/external/work-requests/{id}`. -/
def getById (c : RequestCtx) (id : String) (db : Database) : Response × Store :=
  match passGate c with
  | (GateOutcome.rejected r, st) => (r, st)
  | (GateOutcome.passed _, st) => (getByIdCore id db, st)

/-- The before-content handler after the auth gate and the rate limiter. -/
def beforeContentCore (id : String) (db : Database) : Response :=
  match jsParseInt id 10 with
  | none => { status := 400, body := Payload.error (some "Invalid work request ID") }
  | some workRequestId =>
    if !db.connects then internalError
    else
      match db.query existsQueryText [SqlValue.num workRequestId] with
      | QueryResult.failed => internalError
      | QueryResult.rows [] =>
        { status := 404, body := Payload.error (some "Work request not found") }
      | QueryResult.rows (_ :: _) =>
        match db.query beforeContentQueryText [SqlValue.num workRequestId] with
        | QueryResult.failed => internalError
        | QueryResult.rows rs =>
          { status := 200, body := Payload.beforeContent rs rs.length workRequestId }

/-- The handler `GET /api/external/work-requests/{id}/before-content`. -/
def beforeContent (c : RequestCtx) (id : String) (db : Database) : Response × Store :=
  match passGate c with
  | (GateOutcome.rejected r, st) => (r, st)
  | (GateOutcome.passed _, st) => (beforeContentCore id db, st)

/-- The videos handler after the auth gate and the rate limiter. -/
def videosCore (id : String) (db : Database) : Response :=
  match jsParseInt id 10 with
  | none => { status := 400, body := Payload.error (some "Invalid work request ID") }
  | some workRequestId =>
    if !db.connects then internalError
    else
      match db.query existsQueryText [SqlValue.num workRequestId] with
      | QueryResult.failed => internalError
      | QueryResult.rows [] =>
        { status := 404, body := Payload.error (some "Work request not found") }
      | QueryResult.rows (_ :: _) =>
        match db.query videosQueryText [SqlValue.num workRequestId] with
        | QueryResult.failed => internalError
        | QueryResult.rows rs => { status := 200, body := Payload.videos true rs }

/-- The handler `GET /api/external/work-requests/{id}/videos`. -/
def videos (c : RequestCtx) (id : String) (db : Database) : Response × Store :=
  match passGate c with
  | (GateOutcome.rejected r, st) => (r, st)
  | (GateOutcome.passed _, st) => (videosCore id db, st)

/-- The body of a verify request as the handler observes it: `request.json()`
rejects (`malformed`), resolves with `null` (`jsonNull`, on which the
destructuring throws), or resolves with any other JSON value, of which the
handler reads the property `work_request_id` (`none` is `undefined`). -/
inductive RequestBody where
  | malformed
  | jsonNull
  | json (work_request_id : Option JsonValue)
  deriving DecidableEq

/-- The `data` object of a successful verify answer. -/
def verifyData (workRequest : Row) : List (String × Option Cell) :=
  [("id", workRequest.get "id"),
   ("address", workRequest.get "address"),
   ("description", workRequest.get "description"),
   ("status", workRequest.get "status_name"),
   ("status_id", workRequest.get "status_id"),
   ("request_date", workRequest.get "request_date"),
   ("created_date", workRequest.get "created_date")]

/-- The verify handler after the auth gate and the rate limiter: everything happens inside the `try`
block, whose `catch` answers 500. -/
def verifyCore (body : RequestBody) (db : Database) : Response :=
  match body with
  | RequestBody.malformed => internalError
  | RequestBody.jsonNull => internalError
  | RequestBody.json none =>
    { status := 400, body := Payload.error (some "work_request_id is required") }
  | RequestBody.json (some work_request_id) =>
    if !jsTruthy work_request_id then
      { status := 400, body := Payload.error (some "work_request_id is required") }
    else
      match jsToString work_request_id with
      | none => internalError
      | some text =>
        match jsParseInt text 10 with
        | none =>
          { status := 400, body := Payload.error (some "Invalid work_request_id format") }
        | some workRequestId =>
          if !db.connects then internalError
          else
            match db.query verifyQueryText [SqlValue.num workRequestId] with
            | QueryResult.failed => internalError
            | QueryResult.rows [] =>
              { status := 200,
                body := Payload.verify false false (some "Work request not found") none }
            | QueryResult.rows (workRequest :: _) =>
              { status := 200,
                body := Payload.verify true true none (some (verifyData workRequest)) }

/-- The handler `POST /api/external/work-requests/verify`. -/
def verify (c : RequestCtx) (body : RequestBody) (db : Database) : Response × Store :=
  match passGate c with
  | (GateOutcome.rejected r, st) => (r, st)
  | (GateOutcome.passed _, st) => (verifyCore body db, st)

/-- The request passes the auth gate and the rate limiter. -/
def passesGate (c : RequestCtx) : Bool :=
  (validateApiKey c.env c.headers).valid &&
  (checkRateLimit c.store c.now c.draw (templateStr c.headers.xApiKey) 100 60000).1.allowed

/-- A production request carrying the configured key `secret`, on an empty
rate-limit store. -/
def sampleCtx : RequestCtx :=
  { env := { VIDEO_ARCHIVING_API_KEY := some "secret", EXTERNAL_API_KEY := none,
             NODE_ENV := some "production" },
    headers := { host := some "api.example.org", referer := none, xApiKey := some "secret" },
    store := [], now := 1700000000000, draw := false }

/-- A store that connects and returns no row for any query. -/
def emptyDb : Database :=
  { connects := true, query := fun _ _ => QueryResult.rows [] }

/-! ### Placeholders of a query text -/

/-- State of the placeholder scanner: outside a placeholder, just after a
dollar sign, or inside the digits of a placeholder. -/
inductive Scan where
  | idle
  | dollar
  | number (n : Nat)
  deriving DecidableEq

/-- Scanner for positional placeholders (a dollar sign followed by digits). -/
def placeholdersAux : List Char → Scan → List Nat
  | [], Scan.number n => [n]
  | [], _ => []
  | c :: cs, s =>
    if 48 ≤ c.toNat ∧ c.toNat ≤ 57 then
      match s with
      | Scan.idle => placeholdersAux cs Scan.idle
      | Scan.dollar => placeholdersAux cs (Scan.number (c.toNat - 48))
      | Scan.number n => placeholdersAux cs (Scan.number (n * 10 + (c.toNat - 48)))
    else
      (match s with
       | Scan.number n => [n]
       | _ => []) ++
      placeholdersAux cs (if c = '$' then Scan.dollar else Scan.idle)

/-- The indices of the positional placeholders of a query text, one per
occurrence, in order. -/
def placeholders (sql : String) : List Nat := placeholdersAux sql.data Scan.idle

/-- The value each placeholder occurrence of a query text refers to in a
parameter list (placeholder `i` is the `i`-th value; `none` when there is none). -/
def boundValues (sql : String) (params : List SqlValue) : List (Option SqlValue) :=
  (placeholders sql).map (fun i => if i = 0 then none else params[i - 1]?)

/-- The substring pattern of a filter value. -/
def likePattern (s : String) : SqlValue := SqlValue.text ("%" ++ s ++ "%")

/-- The values a search contributes, in the words of the specification: none
when empty, the number and the pattern when numeric, else the pattern. -/
def searchValues (search : String) : List SqlValue :=
  if search = "" then []
  else
    match jsParseInt search 10 with
    | some n => [SqlValue.num n, likePattern search]
    | none => [likePattern search]

/-- The value a status contributes: none when absent or empty, the number when
numeric, else the pattern. -/
def statusValues (status : Option String) : List SqlValue :=
  match status with
  | none => []
  | some st =>
    if st = "" then []
    else
      match jsParseInt st 10 with
      | some n => [SqlValue.num n]
      | none => [likePattern st]

/-- What the comparisons of the search predicate are to be made with, in the
order they are written: the ID with the number, then address, description and
complaint type with the pattern. -/
def searchRefs (search : String) : List SqlValue :=
  if search = "" then []
  else
    match jsParseInt search 10 with
    | some n => [SqlValue.num n, likePattern search, likePattern search, likePattern search]
    | none => [likePattern search, likePattern search, likePattern search]

/-- The placeholder occurrences of the WHERE clause for a treatment of the
search and of the status. -/
def placeholdersOfKinds (sk tk : FilterKind) : List Nat :=
  (match sk with
   | FilterKind.absent => []
   | FilterKind.numeric => [1, 2, 2, 2]
   | FilterKind.text => [1, 1, 1]) ++
  (match tk with
   | FilterKind.absent => []
   | _ =>
     match sk with
     | FilterKind.absent => [1]
     | FilterKind.numeric => [3]
     | FilterKind.text => [2])

/-- Two listing requests, one with a plain search and one whose search and
status carry SQL syntax. -/
def plainRequest : ListParams :=
  { search := some "pipe", filter := none, status := some "Open",
    limit := some "5", offset := none }

/-- A listing request whose search and status carry SQL syntax. -/
def hostileRequest : ListParams :=
  { search := some "x); DROP TABLE work_requests; --", filter := none,
    status := some "a OR 1=1", limit := some "7", offset := some "3" }

/-! ## `src/lib/efilingApiClient.js`: the downstream client -/

/-- A thrown error value, with its `message`. -/
structure JsError where
  message : String
  deriving DecidableEq

/-- The `TypeError` of reading a property of `null` (message of V8). -/
def nullPropertyError (property : String) : JsError :=
  { message := "Cannot read properties of null (reading \x27" ++ property ++ "\x27)" }

/-- The `TypeError` of converting a value that has no string conversion. -/
def toPrimitiveError : JsError :=
  { message := "Cannot convert object to primitive value" }

/-- A parsed JSON response body as the client observes it: `null`, or any other
value with its `error` property (`none` is `undefined`). -/
inductive ParsedJson where
  | null
  | value (error : Option JsonValue)
  deriving DecidableEq

/-- A response of the sibling system: status, status text and the outcome of
`response.json()` (the message of the rejection, or the parsed body). -/
structure HttpResponse where
  status : Nat
  statusText : String
  json : Except String ParsedJson

/-- The getter `response.ok`: the status is in the range 200 to 299. -/
def HttpResponse.ok (r : HttpResponse) : Bool :=
  decide (200 ≤ r.status) && decide (r.status ≤ 299)

/-- Outcome of the `fetch` call: it rejects with a network error, it is aborted
by the five-second timeout signal, or it resolves with a response. -/
inductive FetchOutcome where
  | networkError (message : String)
  | timeout (message : String)
  | response (r : HttpResponse)

/-- What the client reads from its surroundings: the two environment
variables, the outcome of `fetch` for a URL, and the serialisation of a value
by `URLSearchParams`. -/
structure Runtime where
  EFILING_API_URL : Option String
  EFILING_API_KEY : Option String
  fetch : String → FetchOutcome
  formEncode : String → String

/-- The `filters` argument of the list calls: `undefined` (the default `{}`
applies), `null`, or any other value with its properties `active` and
`department_id` (`none` is `undefined`). -/
inductive FiltersArg where
  | undefined
  | null
  | object (active department_id : Option JsonValue)
  deriving DecidableEq

/-- The `data` member of a degraded result: the empty list or `null`. -/
inductive DataShape where
  | emptyList
  | null
  deriving DecidableEq

/-- What a client call resolves with: the structured object with `success`,
`error` and `data`, or the parsed body of the response. -/
inductive ClientResult where
  | structured (success : Bool) (error : String) (data : DataShape)
  | body (json : ParsedJson)
  deriving DecidableEq

/-- The module constant `EFILING_API_URL`. -/
def apiUrl (rt : Runtime) : String :=
  jsOrStr rt.EFILING_API_URL "http://localhost:5000/api/external"

/-- A `try` block with its `catch` handler. -/
def tryCatch {α : Type} (body : Except JsError α) (handler : JsError → Except JsError α) :
    Except JsError α :=
  match body with
  | Except.ok a => Except.ok a
  | Except.error e => handler e

/-- The method call `value.toString()`: a `TypeError` on `null`, else the
string conversion of the value. Only the fact that an error is thrown is
modelled for a value without a string conversion; the message text of the
engine for that case is not. -/
def callToString (property : String) (v : JsonValue) : Except JsError String :=
  match v with
  | JsonValue.null => Except.error (nullPropertyError property)
  | _ =>
    match jsToString v with
    | some text => Except.ok text
    | none => Except.error toPrimitiveError

/-- Interpolation of a value into a template literal (`undefined` is `none`). -/
def templateValue (v : Option JsonValue) : Except JsError String :=
  match v with
  | none => Except.ok "undefined"
  | some w =>
    match jsToString w with
    | some text => Except.ok text
    | none => Except.error toPrimitiveError

/-- `URLSearchParams.prototype.toString` on the appended pairs. -/
def serializeParams (rt : Runtime) (pairs : List (String × String)) : String :=
  "&".intercalate (pairs.map (fun kv => kv.1 ++ "=" ++ rt.formEncode kv.2))

/-- The query string suffix of a list URL: empty when there are no parameters. -/
def querySuffix (rt : Runtime) (pairs : List (String × String)) : String :=
  if serializeParams rt pairs ≠ "" then "?" ++ serializeParams rt pairs else ""

/-- The statements on a response that is not OK, after the 404 test of the
by-id calls: read the error body, falling back to `Unknown error`, and throw. -/
def throwApiError {α : Type} (r : HttpResponse) : Except JsError α :=
  let errorData : ParsedJson :=
    match r.json with
    | Except.ok j => j
    | Except.error _ => ParsedJson.value (some (JsonValue.str "Unknown error"))
  match errorData with
  | ParsedJson.null => Except.error (nullPropertyError "error")
  | ParsedJson.value errorField =>
    let shown : Except JsError String :=
      match errorField with
      | some v => if jsTruthy v then templateValue (some v) else Except.ok r.statusText
      | none => Except.ok r.statusText
    match shown with
    | Except.ok text => Except.error { message := "E-Filing API error: " ++ text }
    | Except.error e => Except.error e

/-- The statement `return await response.json()`. -/
def returnJson (r : HttpResponse) : Except JsError ClientResult :=
  match r.json with
  | Except.ok j => Except.ok (ClientResult.body j)
  | Except.error message => Except.error { message := message }

/-- The `fetch` call of a list call and what follows it in the `try` block. -/
def fetchList (rt : Runtime) (url : String) : Except JsError ClientResult :=
  match rt.fetch url with
  | FetchOutcome.networkError message => Except.error { message := message }
  | FetchOutcome.timeout message => Except.error { message := message }
  | FetchOutcome.response r => if !r.ok then throwApiError r else returnJson r

/-- The `fetch` call of a by-id call and what follows it in the `try` block. -/
def fetchOne (rt : Runtime) (url notFound : String) : Except JsError ClientResult :=
  match rt.fetch url with
  | FetchOutcome.networkError message => Except.error { message := message }
  | FetchOutcome.timeout message => Except.error { message := message }
  | FetchOutcome.response r =>
    if !r.ok then
      if r.status = 404 then Except.ok (ClientResult.structured false notFound DataShape.null)
      else throwApiError r
    else returnJson r

/-- The parameter pair appended for `filters.active`, if any. -/
def activePair (active : Option JsonValue) : Except JsError (List (String × String)) :=
  match active with
  | none => Except.ok []
  | some v =>
    match callToString "toString" v with
    | Except.ok text => Except.ok [("active", text)]
    | Except.error e => Except.error e

/-- The parameter pair appended for `filters.department_id`, if any. -/
def departmentPair (department_id : Option JsonValue) :
    Except JsError (List (String × String)) :=
  match department_id with
  | none => Except.ok []
  | some v =>
    if jsTruthy v then
      match callToString "toString" v with
      | Except.ok text => Except.ok [("department_id", text)]
      | Except.error e => Except.error e
    else Except.ok []

/-- The function `getDivisions(filters = {})`. -/
def getDivisions (rt : Runtime) (filters : FiltersArg) : Except JsError ClientResult :=
  tryCatch
    (match filters with
     | FiltersArg.null => Except.error (nullPropertyError "active")
     | FiltersArg.undefined => fetchList rt (apiUrl rt ++ "/divisions" ++ querySuffix rt [])
     | FiltersArg.object active department_id =>
       match activePair active with
       | Except.error e => Except.error e
       | Except.ok p1 =>
         match departmentPair department_id with
         | Except.error e => Except.error e
         | Except.ok p2 =>
           fetchList rt (apiUrl rt ++ "/divisions" ++ querySuffix rt (p1 ++ p2)))
    (fun error => Except.ok (ClientResult.structured false error.message DataShape.emptyList))

/-- The function `getDivisionById(id)`. -/
def getDivisionById (rt : Runtime) (id : Option JsonValue) : Except JsError ClientResult :=
  tryCatch
    (match templateValue id with
     | Except.error e => Except.error e
     | Except.ok text => fetchOne rt (apiUrl rt ++ "/divisions/" ++ text) "Division not found")
    (fun error => Except.ok (ClientResult.structured false error.message DataShape.null))

/-- The function `getZones(filters = {})`. -/
def getZones (rt : Runtime) (filters : FiltersArg) : Except JsError ClientResult :=
  tryCatch
    (match filters with
     | FiltersArg.null => Except.error (nullPropertyError "active")
     | FiltersArg.undefined => fetchList rt (apiUrl rt ++ "/zones" ++ querySuffix rt [])
     | FiltersArg.object active _ =>
       match activePair active with
       | Except.error e => Except.error e
       | Except.ok p1 => fetchList rt (apiUrl rt ++ "/zones" ++ querySuffix rt p1))
    (fun error => Except.ok (ClientResult.structured false error.message DataShape.emptyList))

/-- The function `getZoneById(id)`. -/
def getZoneById (rt : Runtime) (id : Option JsonValue) : Except JsError ClientResult :=
  tryCatch
    (match templateValue id with
     | Except.error e => Except.error e
     | Except.ok text => fetchOne rt (apiUrl rt ++ "/zones/" ++ text) "Zone not found")
    (fun error => Except.ok (ClientResult.structured false error.message DataShape.null))

/-- The outbound call fails: network error, timeout abort, or a status that is
not OK. -/
def FetchOutcome.isFailure : FetchOutcome → Bool
  | FetchOutcome.networkError _ => true
  | FetchOutcome.timeout _ => true
  | FetchOutcome.response r => !r.ok

/-- A runtime whose every outbound call fails with a 503 and no JSON body. -/
def downRuntime : Runtime :=
  { EFILING_API_URL := none, EFILING_API_KEY := some "k",
    fetch := fun _ =>
      FetchOutcome.response
        { status := 503, statusText := "Service Unavailable",
          json := Except.error "Unexpected end of JSON input" },
    formEncode := fun s => s }

/-- The text starts with an integer: after leading white space and an optional
sign comes a decimal digit. -/
def startsWithInteger (s : String) : Bool :=
  match (takeSign (dropWhiteSpace s.data)).2 with
  | [] => false
  | c :: _ => decide (48 ≤ c.toNat) && decide (c.toNat ≤ 57)

/-- The class of a filter value in the words of the specification: empty,
numeric when it parses fully as an integer, non-numeric otherwise. -/
def specKind (v : Option String) : FilterKind :=
  match v with
  | none => FilterKind.absent
  | some s =>
    if s = "" then FilterKind.absent
    else if isIntegerLiteral s then FilterKind.numeric
    else FilterKind.text

/-- A listing request with the search `12 Main Street` and nothing else. -/
def streetSearch : ListParams :=
  { search := some "12 Main Street", filter := none, status := none,
    limit := none, offset := none }

/-! ## Lemmas on the JavaScript primitives -/

theorem digitChar_toNat (d : Nat) (h : d < 10) : (Char.ofNat (48 + d)).toNat = 48 + d := by
  interval_cases d <;> rfl

theorem digitChar_isDecDigit (d : Nat) (h : d < 10) : IsDecDigit (Char.ofNat (48 + d)) := by
  unfold IsDecDigit
  rw [digitChar_toNat d h]
  omega

theorem decimalAux_append (fuel n : Nat) (acc : List Char) :
    decimalAux fuel n acc = decimalAux fuel n [] ++ acc := by
  induction fuel generalizing n acc with
  | zero => simp [decimalAux]
  | succ f ih =>
    unfold decimalAux
    by_cases h : n < 10
    · simp [h]
    · simp only [h, if_false]
      rw [ih (n / 10) (Char.ofNat (48 + n % 10) :: acc), ih (n / 10) [Char.ofNat (48 + n % 10)]]
      simp

theorem decimalAux_fuel (f1 f2 n : Nat) (acc : List Char) (h1 : n < f1) (h2 : n < f2) :
    decimalAux f1 n acc = decimalAux f2 n acc := by
  induction f1 generalizing f2 n acc with
  | zero => omega
  | succ f ih =>
    cases f2 with
    | zero => omega
    | succ g =>
      unfold decimalAux
      by_cases h : n < 10
      · simp [h]
      · simp only [h, if_false]
        have hd : n / 10 < n := Nat.div_lt_self (by omega) (by omega)
        exact ih g (n / 10) _ (by omega) (by omega)

theorem natToChars_small (n : Nat) (h : n < 10) : natToChars n = [Char.ofNat (48 + n)] := by
  simp [natToChars, decimalAux, h]

theorem natToChars_step (n : Nat) (h : 10 ≤ n) :
    natToChars n = natToChars (n / 10) ++ [Char.ofNat (48 + n % 10)] := by
  have hd : n / 10 < n := Nat.div_lt_self (by omega) (by omega)
  have hn : ¬ n < 10 := by omega
  unfold natToChars
  rw [decimalAux]
  simp only [hn, if_false]
  rw [decimalAux_append]
  rw [decimalAux_fuel n (n / 10 + 1) (n / 10) [] hd (by omega)]

theorem natToChars_digits (n : Nat) : ∀ c ∈ natToChars n, IsDecDigit c := by
  induction n using Nat.strong_induction_on with
  | _ n ih =>
    by_cases h : n < 10
    · rw [natToChars_small n h]
      intro c hc
      simp only [List.mem_singleton] at hc
      subst hc
      exact digitChar_isDecDigit n h
    · rw [natToChars_step n (by omega)]
      intro c hc
      rcases List.mem_append.mp hc with hc | hc
      · exact ih (n / 10) (Nat.div_lt_self (by omega) (by omega)) c hc
      · simp only [List.mem_singleton] at hc
        subst hc
        exact digitChar_isDecDigit (n % 10) (Nat.mod_lt _ (by omega))

theorem natToChars_ne_nil (n : Nat) : natToChars n ≠ [] := by
  by_cases h : n < 10
  · rw [natToChars_small n h]; simp
  · rw [natToChars_step n (by omega)]; simp

theorem digitsValue_append (r : Nat) (xs : List Nat) (d : Nat) :
    digitsValue r (xs ++ [d]) = digitsValue r xs * r + d := by
  simp [digitsValue, List.foldl_append]

theorem natToChars_value (n : Nat) : digitsValue 10 (charValues (natToChars n)) = n := by
  induction n using Nat.strong_induction_on with
  | _ n ih =>
    by_cases h : n < 10
    · rw [natToChars_small n h]
      simp [charValues, digitsValue, digitChar_toNat n h]
    · rw [natToChars_step n (by omega)]
      have hm : n % 10 < 10 := Nat.mod_lt _ (by omega)
      have := ih (n / 10) (Nat.div_lt_self (by omega) (by omega))
      simp only [charValues, List.map_append, List.map_cons, List.map_nil] at this ⊢
      rw [digitsValue_append, this, digitChar_toNat _ hm]
      omega

theorem natToChars_injective (a b : Nat) (h : natToChars a = natToChars b) : a = b := by
  have ha := natToChars_value a
  rw [h, natToChars_value b] at ha
  exact ha.symm

theorem radixDigit_dec (c : Char) (h : IsDecDigit c) : radixDigit 10 c = some (c.toNat - 48) := by
  unfold IsDecDigit at h
  have h1 : c.toNat - 48 < 10 := by omega
  simp [radixDigit, digitValue, h.1, h.2, h1]

theorem leadingDigits_dec (cs : List Char) (h : ∀ c ∈ cs, IsDecDigit c) :
    leadingDigits 10 cs = charValues cs := by
  induction cs with
  | nil => rfl
  | cons c cs ih =>
    have hc := h c (List.mem_cons_self _ _)
    have ht := ih (fun x hx => h x (List.mem_cons_of_mem _ hx))
    simp [leadingDigits, radixDigit_dec c hc, ht, charValues]

theorem isStrWhiteSpace_dec (c : Char) (h : IsDecDigit c) : isStrWhiteSpace c = false := by
  unfold IsDecDigit at h
  simp only [isStrWhiteSpace, Bool.or_eq_false_iff, decide_eq_false_iff_not,
    Bool.and_eq_false_iff]
  omega

theorem dropWhiteSpace_dec (cs : List Char) (h : ∀ c ∈ cs, IsDecDigit c) :
    dropWhiteSpace cs = cs := by
  cases cs with
  | nil => rfl
  | cons c cs => simp [dropWhiteSpace, isStrWhiteSpace_dec c (h c (List.mem_cons_self _ _))]

theorem ne_of_toNat_ne (c d : Char) (h : c.toNat ≠ d.toNat) : c ≠ d := by
  intro e; exact h (by rw [e])

theorem takeSign_dec (cs : List Char) (h : ∀ c ∈ cs, IsDecDigit c) :
    takeSign cs = (false, cs) := by
  cases cs with
  | nil => rfl
  | cons c cs =>
    have hc := h c (List.mem_cons_self _ _)
    unfold IsDecDigit at hc
    have h1 : c ≠ '-' := ne_of_toNat_ne _ _ (by
      have : ('-' : Char).toNat = 45 := rfl
      omega)
    have h2 : c ≠ '+' := ne_of_toNat_ne _ _ (by
      have : ('+' : Char).toNat = 43 := rfl
      omega)
    unfold takeSign
    split
    · rename_i heq; simp at heq; exact absurd heq.1 h1
    · rename_i heq; simp at heq; exact absurd heq.1 h2
    · rfl

theorem takeHexPrefix_dec (cs : List Char) (h : ∀ c ∈ cs, IsDecDigit c) :
    takeHexPrefix cs = none := by
  unfold takeHexPrefix
  split
  · rename_i heq
    have hx := h 'x' (by simp)
    unfold IsDecDigit at hx
    have : ('x' : Char).toNat = 120 := rfl
    omega
  · rename_i heq
    have hx := h 'X' (by simp)
    unfold IsDecDigit at hx
    have : ('X' : Char).toNat = 88 := rfl
    omega
  · rfl

theorem charValues_ne_nil (cs : List Char) (h : cs ≠ []) : charValues cs ≠ [] := by
  cases cs with
  | nil => exact absurd rfl h
  | cons c cs => simp [charValues]

/-- On a non-empty list of decimal digits `parseInt` (radix absent or 10)
returns the number the digits write. -/
theorem parseIntChars_dec (cs : List Char) (radix : Nat) (hr : radix = 0 ∨ radix = 10)
    (hne : cs ≠ []) (h : ∀ c ∈ cs, IsDecDigit c) :
    parseIntChars cs radix = some ((digitsValue 10 (charValues cs) : Nat) : Int) := by
  unfold parseIntChars
  rw [dropWhiteSpace_dec cs h, takeSign_dec cs h]
  have hv := charValues_ne_nil cs hne
  rcases hr with hr | hr
  · subst hr
    cases hcv : charValues cs with
    | nil => exact absurd hcv hv
    | cons d ds => simp [takeHexPrefix_dec cs h, leadingDigits_dec cs h, hcv]
  · subst hr
    cases hcv : charValues cs with
    | nil => exact absurd hcv hv
    | cons d ds => simp [leadingDigits_dec cs h, hcv]

theorem jsParseInt_natToString (n : Nat) (radix : Nat) (hr : radix = 0 ∨ radix = 10) :
    jsParseInt (natToString n) radix = some (n : Int) := by
  unfold jsParseInt natToString
  rw [parseIntChars_dec _ radix hr (natToChars_ne_nil n) (natToChars_digits n),
    natToChars_value]

/-! ## Lemmas on bucket keys and the store -/

theorem underscore_not_mem_natToChars (n : Nat) : '_' ∉ natToChars n := by
  intro h
  have hd := natToChars_digits n '_' h
  unfold IsDecDigit at hd
  have : ('_' : Char).toNat = 95 := rfl
  omega

theorem bucketKey_data (identifier : String) (w : Nat) :
    (bucketKey identifier w).data = identifier.data ++ '_' :: natToChars w := by
  simp [bucketKey, natToString]

/-- A list is split in one way only at the last occurrence of a separator. -/
theorem append_sep_inj {α : Type} (s : α) (a a2 d d2 : List α)
    (hd : s ∉ d) (hd2 : s ∉ d2) (h : a ++ s :: d = a2 ++ s :: d2) : a = a2 ∧ d = d2 := by
  induction a generalizing a2 with
  | nil =>
    cases a2 with
    | nil => simpa using h
    | cons y ys =>
      simp only [List.nil_append, List.cons_append, List.cons.injEq] at h
      exact absurd (by rw [h.2]; simp) hd
  | cons x xs ih =>
    cases a2 with
    | nil =>
      simp only [List.nil_append, List.cons_append, List.cons.injEq] at h
      exact absurd (by rw [← h.2]; simp) hd2
    | cons y ys =>
      simp only [List.cons_append, List.cons.injEq] at h
      obtain ⟨h1, h2⟩ := ih ys h.2
      exact ⟨by rw [h.1, h1], h2⟩

/-- Bucket keys determine the identifier and the window index. -/
theorem bucketKey_inj (i1 i2 : String) (w1 w2 : Nat)
    (h : bucketKey i1 w1 = bucketKey i2 w2) : i1 = i2 ∧ w1 = w2 := by
  have hdata : (bucketKey i1 w1).data = (bucketKey i2 w2).data := by rw [h]
  rw [bucketKey_data, bucketKey_data] at hdata
  obtain ⟨ha, hd⟩ := append_sep_inj '_' _ _ _ _ (underscore_not_mem_natToChars w1)
    (underscore_not_mem_natToChars w2) hdata
  exact ⟨String.ext ha, natToChars_injective w1 w2 hd⟩

theorem Store.get_eq_none_of_not_mem (st : Store) (key : String)
    (h : key ∉ st.map Prod.fst) : st.get key = none := by
  induction st with
  | nil => rfl
  | cons e rest ih =>
    obtain ⟨k, v⟩ := e
    simp only [List.map_cons, List.mem_cons, not_or] at h
    have hk : ¬ k = key := fun e => h.1 e.symm
    simp [Store.get, hk, ih h.2]

theorem Store.get_set_same (st : Store) (key : String) (v : Nat) :
    (st.set key v).get key = some v := by
  induction st with
  | nil => simp [Store.set, Store.get]
  | cons e rest ih =>
    obtain ⟨k, v0⟩ := e
    by_cases hk : k = key
    · simp [Store.set, Store.get, hk]
    · simp [Store.set, Store.get, hk, ih]

theorem Store.get_set_other (st : Store) (key key2 : String) (v : Nat) (hne : key2 ≠ key) :
    (st.set key v).get key2 = st.get key2 := by
  induction st with
  | nil =>
    have : ¬ key = key2 := fun e => hne e.symm
    simp [Store.set, Store.get, this]
  | cons e rest ih =>
    obtain ⟨k, v0⟩ := e
    by_cases hk : k = key
    · subst hk
      have : ¬ k = key2 := fun e => hne e.symm
      simp [Store.set, Store.get, this]
    · by_cases hk2 : k = key2
      · subst hk2
        simp [Store.set, Store.get, hk]
      · simp [Store.set, Store.get, hk, hk2, ih]

theorem Store.keys_set (st : Store) (key : String) (v : Nat) :
    ∀ k ∈ (st.set key v).map Prod.fst, k = key ∨ k ∈ st.map Prod.fst := by
  induction st with
  | nil => intro k hk; simp [Store.set] at hk; exact Or.inl hk
  | cons e rest ih =>
    obtain ⟨k0, v0⟩ := e
    intro k hk
    by_cases h0 : k0 = key
    · simp only [Store.set, h0, if_true, List.map_cons, List.mem_cons] at hk
      rcases hk with hk | hk
      · exact Or.inl hk
      · right; simp only [List.map_cons, List.mem_cons]; exact Or.inr hk
    · simp only [Store.set, h0, if_false, List.map_cons, List.mem_cons] at hk
      rcases hk with hk | hk
      · right; simp only [List.map_cons, List.mem_cons]; exact Or.inl hk
      · rcases ih k hk with h | h
        · exact Or.inl h
        · right; simp only [List.map_cons, List.mem_cons]; exact Or.inr h

theorem cleanup_keys (st : Store) (windowMs now : Nat) :
    ∀ k ∈ (cleanup st windowMs now).map Prod.fst, k ∈ st.map Prod.fst := by
  intro k hk
  simp only [cleanup, List.mem_map, List.mem_filter] at hk ⊢
  obtain ⟨e, ⟨he, _⟩, hke⟩ := hk
  exact ⟨e, he, hke⟩

/-- A call adds no key but the bucket key of its identifier and window. -/
theorem checkRateLimit_keys (st : Store) (now : Nat) (draw : Bool) (identifier : String)
    (maxRequests windowMs : Nat) :
    ∀ k ∈ (checkRateLimit st now draw identifier maxRequests windowMs).2.map Prod.fst,
      k = bucketKey identifier (now / windowMs) ∨ k ∈ st.map Prod.fst := by
  intro k hk
  unfold checkRateLimit at hk
  by_cases hc : (st.get (bucketKey identifier (now / windowMs))).getD 0 ≥ maxRequests
  · simp only [hc, if_true] at hk
    exact Or.inr hk
  · simp only [hc, if_false] at hk
    cases draw with
    | false =>
      simp only [Bool.false_eq_true, if_false] at hk
      exact Store.keys_set _ _ _ k hk
    | true =>
      simp only [if_true] at hk
      exact Store.keys_set _ _ _ k (cleanup_keys _ _ _ k hk)

/-- Every key of the store after a history is a key of the initial store or the
bucket key of one of the calls. -/
theorem runCalls_keys (windowMs : Nat) (cs : List Call) (st : Store) :
    ∀ k ∈ (runCalls windowMs st cs).map Prod.fst,
      k ∈ st.map Prod.fst ∨ ∃ c ∈ cs, k = bucketKey c.identifier (c.now / windowMs) := by
  induction cs generalizing st with
  | nil => intro k hk; exact Or.inl hk
  | cons c cs ih =>
    intro k hk
    simp only [runCalls] at hk
    rcases ih _ k hk with h | ⟨c2, hc2, hk2⟩
    · rcases checkRateLimit_keys _ _ _ _ _ _ k h with h1 | h1
      · exact Or.inr ⟨c, List.mem_cons_self _ _, h1⟩
      · exact Or.inl h1
    · exact Or.inr ⟨c2, List.mem_cons_of_mem _ hc2, hk2⟩

/-- The result of a call that finds no bucket under its key. -/
theorem checkRateLimit_fresh (st : Store) (now : Nat) (draw : Bool) (identifier : String)
    (maxRequests windowMs : Nat) (hm : 1 ≤ maxRequests)
    (hget : st.get (bucketKey identifier (now / windowMs)) = none) :
    (checkRateLimit st now draw identifier maxRequests windowMs).1 =
      { allowed := true, remaining := (maxRequests : Int) - 1,
        resetAt := (now / windowMs + 1) * windowMs } := by
  unfold checkRateLimit
  have hc : ¬ (0 ≥ maxRequests) := by omega
  simp [hget, hc]

theorem checkRateLimit_resetAt (st : Store) (now : Nat) (draw : Bool) (identifier : String)
    (maxRequests windowMs : Nat) :
    (checkRateLimit st now draw identifier maxRequests windowMs).1.resetAt =
      (now / windowMs + 1) * windowMs := by
  unfold checkRateLimit
  by_cases hc : (st.get (bucketKey identifier (now / windowMs))).getD 0 ≥ maxRequests
  · simp only [hc, if_true]
  · simp only [hc, if_false]

theorem window_bounds (now windowMs : Nat) (hw : 0 < windowMs) :
    now < (now / windowMs + 1) * windowMs ∧ (now / windowMs + 1) * windowMs ≤ now + windowMs := by
  have h1 := Nat.div_add_mod now windowMs
  have h2 := Nat.mod_lt now hw
  have h3 : (now / windowMs + 1) * windowMs = windowMs * (now / windowMs) + windowMs := by ring
  omega

/-- C8: the reset time is the start of the next window, it lies after `now`
and at most one window length later, and the first check of the identifier at
or after the reset time is admitted with `remaining = maxRequests - 1`, whatever
calls were made before. -/
theorem window_reset (identifier : String) (maxRequests windowMs now : Nat)
    (hm : 1 ≤ maxRequests) (hw : 0 < windowMs) :
    (∀ (st : Store) (draw : Bool),
      (checkRateLimit st now draw identifier maxRequests windowMs).1.resetAt =
        (now / windowMs + 1) * windowMs) ∧
    now < (now / windowMs + 1) * windowMs ∧
    (now / windowMs + 1) * windowMs ≤ now + windowMs ∧
    ∀ (history : List Call) (t : Nat) (draw : Bool),
      (∀ c ∈ history, c.identifier = identifier →
        c.now < (now / windowMs + 1) * windowMs) →
      (now / windowMs + 1) * windowMs ≤ t →
      (checkRateLimit (runCalls windowMs [] history) t draw identifier
          maxRequests windowMs).1 =
        { allowed := true, remaining := (maxRequests : Int) - 1,
          resetAt := (t / windowMs + 1) * windowMs } := by
  refine ⟨fun st draw => checkRateLimit_resetAt st now draw identifier maxRequests windowMs,
    (window_bounds now windowMs hw).1, (window_bounds now windowMs hw).2, ?_⟩
  intro history t draw hhist ht
  apply checkRateLimit_fresh _ _ _ _ _ _ hm
  apply Store.get_eq_none_of_not_mem
  intro hmem
  rcases runCalls_keys windowMs history [] _ hmem with h | ⟨c, hc, hk⟩
  · simp at h
  · obtain ⟨hid, hwin⟩ := bucketKey_inj _ _ _ _ hk
    have hlt := hhist c hc hid.symm
    have hdiv : c.now / windowMs < now / windowMs + 1 :=
      (Nat.div_lt_iff_lt_mul hw).mpr hlt
    have hle : now / windowMs + 1 ≤ t / windowMs :=
      (Nat.le_div_iff_mul_le hw).mpr ht
    omega

/-! ## Lemmas on the auth gate -/

theorem includes_orStr (v : Option String) (lit : String)
    (hlit : jsIncludes "" lit = false) :
    jsIncludes (jsOrStr v "") lit =
      (match v with
       | some s => jsIncludes s lit
       | none => false) := by
  cases v with
  | none => simp [jsOrStr, hlit]
  | some s =>
    by_cases hs : s = ""
    · subst hs; simp [jsOrStr, hlit]
    · simp [jsOrStr, hs]

theorem isLocalhost_eq_spec (h : Headers) : isLocalhost h = loopbackSpec h := by
  simp only [isLocalhost, loopbackSpec]
  rw [includes_orStr h.host "localhost" (by decide),
    includes_orStr h.host "127.0.0.1" (by decide),
    includes_orStr h.referer "localhost" (by decide),
    includes_orStr h.referer "127.0.0.1" (by decide)]

theorem truthy_jsOr_spec (env : Env) :
    (truthy (jsOr env.VIDEO_ARCHIVING_API_KEY env.EXTERNAL_API_KEY) = false ∧
        expectedKeySpec env = none) ∨
    (∃ k, k ≠ "" ∧ jsOr env.VIDEO_ARCHIVING_API_KEY env.EXTERNAL_API_KEY = some k ∧
        expectedKeySpec env = some k) := by
  rcases env with ⟨a, b, c⟩
  cases a with
  | none =>
    cases b with
    | none => left; simp [jsOr, truthy, expectedKeySpec]
    | some k2 =>
      by_cases h2 : k2 = ""
      · left; simp [jsOr, truthy, expectedKeySpec, h2]
      · right; exact ⟨k2, h2, by simp [jsOr, truthy, expectedKeySpec, h2]⟩
  | some k =>
    by_cases h1 : k = ""
    · cases b with
      | none => left; simp [jsOr, truthy, expectedKeySpec, h1]
      | some k2 =>
        by_cases h2 : k2 = ""
        · left; simp [jsOr, truthy, expectedKeySpec, h1, h2]
        · right; exact ⟨k2, h2, by simp [jsOr, truthy, expectedKeySpec, h1, h2]⟩
    · right; exact ⟨k, h1, by simp [jsOr, truthy, expectedKeySpec, h1]⟩

/-- C2: for every configuration and every request, `validateApiKey` returns
what the four-step policy returns: valid on the development loopback bypass,
else `API key not configured` when no expected key is set, else the key-required
error when the `X-API-Key` header is absent or empty, else valid exactly when the
supplied key equals the expected key and `Unauthorized - Invalid API key` when not. -/
theorem validateApiKey_eq_policy (env : Env) (h : Headers) :
    validateApiKey env h = validateApiKeyPolicy env h := by
  unfold validateApiKey validateApiKeyPolicy
  rw [isLocalhost_eq_spec]
  by_cases hdev : env.NODE_ENV ≠ some "production" ∧ loopbackSpec h = true
  · simp [hdev.1, hdev.2]
  · have hdev2 : (decide (env.NODE_ENV ≠ some "production") && loopbackSpec h) = false := by
      by_cases h1 : env.NODE_ENV = some "production"
      · simp [h1]
      · have : loopbackSpec h = false := by
          cases hl : loopbackSpec h with
          | false => rfl
          | true => exact absurd ⟨h1, hl⟩ hdev
        simp [this]
    rw [if_neg hdev]
    simp only [hdev2]
    rcases truthy_jsOr_spec env with ⟨ht, hs⟩ | ⟨k, hk, hj, hs⟩
    · simp [ht, hs]
    · rw [hj, hs]
      cases hx : h.xApiKey with
      | none => simp [truthy, hk]
      | some s =>
        by_cases hs0 : s = ""
        · simp [truthy, hk, hs0]
        · by_cases hsk : s = k
          · simp [truthy, hk, hs0, hsk]
          · simp [truthy, hk, hs0, hsk]

/-! ## The fixed window for identifiers without an underscore -/

theorem splitOnChar_ne_nil (sep : Char) (cs : List Char) : splitOnChar sep cs ≠ [] := by
  cases cs with
  | nil => simp [splitOnChar]
  | cons c cs =>
    unfold splitOnChar
    split
    · simp
    · split <;> simp

theorem splitOnChar_not_mem (sep : Char) (cs : List Char) (h : sep ∉ cs) :
    splitOnChar sep cs = [cs] := by
  induction cs with
  | nil => rfl
  | cons c cs ih =>
    simp only [List.mem_cons, not_or] at h
    have hc : ¬ c = sep := fun e => h.1 e.symm
    unfold splitOnChar
    rw [ih h.2]
    simp [hc]

theorem splitOnChar_append (sep : Char) (a d : List Char) (h : sep ∉ a) :
    splitOnChar sep (a ++ sep :: d) = a :: splitOnChar sep d := by
  induction a with
  | nil =>
    simp only [List.nil_append]
    rw [splitOnChar]
    cases hs : splitOnChar sep d with
    | nil => exact absurd hs (splitOnChar_ne_nil sep d)
    | cons seg rest => simp
  | cons c cs ih =>
    simp only [List.mem_cons, not_or] at h
    have hc : ¬ c = sep := fun e => h.1 e.symm
    simp only [List.cons_append]
    rw [splitOnChar, ih h.2]
    simp [hc]

theorem splitSecond_bucketKey (identifier : String) (w : Nat) (h : '_' ∉ identifier.data) :
    splitSecond (bucketKey identifier w) = some (natToString w) := by
  unfold splitSecond jsSplit
  rw [bucketKey_data, splitOnChar_append '_' _ _ h,
    splitOnChar_not_mem '_' _ (underscore_not_mem_natToChars w)]
  rfl

theorem keyTimestamp_bucketKey (identifier : String) (w windowMs : Nat)
    (h : '_' ∉ identifier.data) :
    keyTimestamp (bucketKey identifier w) windowMs = some ((w : Int) * (windowMs : Int)) := by
  unfold keyTimestamp
  rw [splitSecond_bucketKey identifier w h]
  simp [jsParseIntOpt, jsParseInt_natToString w 0 (Or.inl rfl)]

/-- The cleanup test is false on the bucket of the active window when the
identifier has no underscore and the window is at most ten minutes long. -/
theorem isStale_active (identifier : String) (windowMs now : Nat)
    (h : '_' ∉ identifier.data) (hw : 0 < windowMs) (hw2 : windowMs ≤ 600000) :
    isStale (bucketKey identifier (now / windowMs)) windowMs ((now : Int) - (10 * 60 * 1000)) =
      false := by
  unfold isStale
  rw [keyTimestamp_bucketKey identifier _ windowMs h]
  simp only [decide_eq_false_iff_not, not_lt]
  have h1 := (window_bounds now windowMs hw).1
  have h3 : (now / windowMs + 1) * windowMs = now / windowMs * windowMs + windowMs := by ring
  have h4 : ((now / windowMs * windowMs : Nat) : Int) =
      ((now / windowMs : Nat) : Int) * (windowMs : Int) := by push_cast; ring
  omega

theorem Store.get_filter (st : Store) (p : String × Nat → Bool) (key : String)
    (hp : ∀ v, p (key, v) = true) : Store.get (st.filter p) key = st.get key := by
  induction st with
  | nil => rfl
  | cons e rest ih =>
    obtain ⟨k, v⟩ := e
    by_cases hk : k = key
    · subst hk
      simp [List.filter, hp v, Store.get]
    · cases hpe : p (k, v) with
      | true => simp [List.filter, hpe, Store.get, hk, ih]
      | false => simp [List.filter, hpe, Store.get, hk, ih]

theorem cleanup_get_active (st : Store) (identifier : String) (windowMs now : Nat)
    (h : '_' ∉ identifier.data) (hw : 0 < windowMs) (hw2 : windowMs ≤ 600000) :
    (cleanup st windowMs now).get (bucketKey identifier (now / windowMs)) =
      st.get (bucketKey identifier (now / windowMs)) := by
  unfold cleanup
  apply Store.get_filter
  intro v
  show (!isStale (bucketKey identifier (now / windowMs)) windowMs
    ((now : Int) - (10 * 60 * 1000))) = true
  rw [isStale_active identifier windowMs now h hw hw2]
  rfl

/-- One call on a bucket with count `c`: the result and the count afterwards. -/
theorem checkRateLimit_step (st : Store) (now : Nat) (draw : Bool) (identifier : String)
    (maxRequests windowMs c : Nat)
    (h : '_' ∉ identifier.data) (hw : 0 < windowMs) (hw2 : windowMs ≤ 600000)
    (hc : (st.get (bucketKey identifier (now / windowMs))).getD 0 = c) :
    (checkRateLimit st now draw identifier maxRequests windowMs).1 =
      (if c < maxRequests then
        { allowed := true, remaining := (maxRequests : Int) - (c : Int) - 1,
          resetAt := (now / windowMs + 1) * windowMs }
       else { allowed := false, remaining := 0, resetAt := (now / windowMs + 1) * windowMs }) ∧
    ((checkRateLimit st now draw identifier maxRequests windowMs).2.get
        (bucketKey identifier (now / windowMs))).getD 0 =
      (if c < maxRequests then c + 1 else c) := by
  unfold checkRateLimit
  by_cases hlt : c < maxRequests
  · have hge : ¬ ((st.get (bucketKey identifier (now / windowMs))).getD 0 ≥ maxRequests) := by
      omega
    simp only [hge, if_false, hlt, if_true]
    refine ⟨by rw [hc], ?_⟩
    cases draw with
    | false => simp [Store.get_set_same, hc]
    | true =>
      simp only [if_true]
      rw [cleanup_get_active _ identifier windowMs now h hw hw2, Store.get_set_same, hc]
      rfl
  · have hge : (st.get (bucketKey identifier (now / windowMs))).getD 0 ≥ maxRequests := by
      omega
    simp only [hge, if_true, hlt, if_false]
    exact ⟨trivial, hc⟩

/-- For an identifier without an underscore and a window of at most ten
minutes, sequential calls inside one window are admitted until the bucket
counts `maxRequests` and rejected afterwards, whatever the cleanup draws. -/
theorem runChecks_fixed_window (identifier : String) (maxRequests windowMs w : Nat)
    (h : '_' ∉ identifier.data) (hw : 0 < windowMs) (hw2 : windowMs ≤ 600000)
    (ticks : List Tick) (hticks : ∀ t ∈ ticks, t.now / windowMs = w)
    (st : Store) (c : Nat) (hc : (st.get (bucketKey identifier w)).getD 0 = c) :
    (runChecks identifier maxRequests windowMs st ticks).1 =
      windowResults maxRequests ((w + 1) * windowMs) c ticks.length := by
  induction ticks generalizing st c with
  | nil => rfl
  | cons t ts ih =>
    have ht : t.now / windowMs = w := hticks t (List.mem_cons_self _ _)
    have hstep := checkRateLimit_step st t.now t.draw identifier maxRequests windowMs c
      h hw hw2 (by rw [ht]; exact hc)
    rw [ht] at hstep
    simp only [runChecks, List.length_cons, windowResults]
    rw [hstep.1, ih (fun x hx => hticks x (List.mem_cons_of_mem _ hx)) _ _ hstep.2]

theorem windowResults_getElem (maxRequests resetAt : Nat) (n c i : Nat) (hi : i < n) :
    (windowResults maxRequests resetAt c n)[i]? =
      some (if c + i < maxRequests then
        { allowed := true, remaining := (maxRequests : Int) - ((c + i : Nat) : Int) - 1,
          resetAt := resetAt }
       else { allowed := false, remaining := 0, resetAt := resetAt }) := by
  induction n generalizing c i with
  | zero => omega
  | succ n ih =>
    cases i with
    | zero => simp [windowResults]
    | succ j =>
      simp only [windowResults, List.getElem?_cons_succ]
      rw [ih _ j (by omega)]
      by_cases hc : c < maxRequests
      · simp only [hc, if_true]
        have : c + 1 + j = c + (j + 1) := by omega
        rw [this]
      · simp only [hc, if_false]
        have h1 : ¬ c + j < maxRequests := by omega
        have h2 : ¬ c + (j + 1) < maxRequests := by omega
        simp [h1, h2]

/-! ## Shapes of the listing query -/

/-- A search written as a natural number is matched by ID or substring, bound
with the number and the pattern. -/
theorem buildFilters_search_nat (n : Nat) :
    buildFilters (natToString n) none =
      { whereClauses := [searchIdClause 1],
        params := [SqlValue.num n, SqlValue.text ("%" ++ natToString n ++ "%")],
        paramIndex := 3 } := by
  have hne : natToString n ≠ "" := by
    intro h
    exact natToChars_ne_nil n (congrArg String.data h)
  simp [buildFilters, addStatus, addSearch, hne, jsParseInt_natToString n 10 (Or.inr rfl)]

/-- A status written as a natural number is matched by ID. -/
theorem buildFilters_status_nat (n : Nat) :
    buildFilters "" (some (natToString n)) =
      { whereClauses := [statusIdClause 1], params := [SqlValue.num n], paramIndex := 2 } := by
  have hne : natToString n ≠ "" := by
    intro h
    exact natToChars_ne_nil n (congrArg String.data h)
  simp [buildFilters, addStatus, addSearch, hne, jsParseInt_natToString n 10 (Or.inr rfl)]

/-- The search block pushes the ID predicate exactly when `parseInt` does not
return `NaN`. -/
theorem addSearch_clause (search : String) (hs : search ≠ "") :
    (buildFilters search none).whereClauses =
      [if (jsParseInt search 10).isSome then searchIdClause 1 else searchTextClause 1] := by
  cases hp : jsParseInt search 10 with
  | none => simp [buildFilters, addStatus, addSearch, hs, hp]
  | some v => simp [buildFilters, addStatus, addSearch, hs, hp]

theorem buildFilters_kinds (search : String) (status : Option String) :
    (buildFilters search status).whereClauses =
      (clausesOfKinds (filterKind (some search)) (filterKind status)).1 ∧
    (buildFilters search status).paramIndex =
      (clausesOfKinds (filterKind (some search)) (filterKind status)).2 := by
  unfold buildFilters
  by_cases hs : search = ""
  · cases status with
    | none => simp [addSearch, addStatus, filterKind, clausesOfKinds, hs]
    | some st =>
      by_cases hst : st = ""
      · simp [addSearch, addStatus, filterKind, clausesOfKinds, hs, hst]
      · cases hp : jsParseInt st 10 with
        | none => simp [addSearch, addStatus, filterKind, clausesOfKinds, hs, hst, hp]
        | some v => simp [addSearch, addStatus, filterKind, clausesOfKinds, hs, hst, hp]
  · cases hq : jsParseInt search 10 with
    | none =>
      cases status with
      | none => simp [addSearch, addStatus, filterKind, clausesOfKinds, hs, hq]
      | some st =>
        by_cases hst : st = ""
        · simp [addSearch, addStatus, filterKind, clausesOfKinds, hs, hq, hst]
        · cases hp : jsParseInt st 10 with
          | none => simp [addSearch, addStatus, filterKind, clausesOfKinds, hs, hq, hst, hp]
          | some v => simp [addSearch, addStatus, filterKind, clausesOfKinds, hs, hq, hst, hp]
    | some n =>
      cases status with
      | none => simp [addSearch, addStatus, filterKind, clausesOfKinds, hs, hq]
      | some st =>
        by_cases hst : st = ""
        · simp [addSearch, addStatus, filterKind, clausesOfKinds, hs, hq, hst]
        · cases hp : jsParseInt st 10 with
          | none => simp [addSearch, addStatus, filterKind, clausesOfKinds, hs, hq, hst, hp]
          | some v => simp [addSearch, addStatus, filterKind, clausesOfKinds, hs, hq, hst, hp]

theorem aliasesBound_kinds (sk tk : FilterKind) :
    aliasesBound (dataQueryText (whereClauseOf (clausesOfKinds sk tk).1)
      (clausesOfKinds sk tk).2) = true ∧
    (sk ≠ FilterKind.absent →
      aliasesBound (countQueryText (whereClauseOf (clausesOfKinds sk tk).1)) = false) := by
  cases sk <;> cases tk <;> decide

/-- For every request with a search, the count query refers to an alias it does
not introduce, and the data query introduces all it refers to. -/
theorem countQuery_unbound_of_search (p : ListParams) (hs : searchOf p ≠ "") :
    aliasesBound (listQuery p).countQuery = false ∧
    aliasesBound (listQuery p).dataQuery = true := by
  have hk := buildFilters_kinds (searchOf p) p.status
  have hne : filterKind (some (searchOf p)) ≠ FilterKind.absent := by
    simp only [filterKind, hs, if_false]
    split <;> simp
  simp only [listQuery, hk.1, hk.2]
  exact ⟨(aliasesBound_kinds _ _).2 hne, (aliasesBound_kinds _ _).1⟩

/-! ## Properties of the auth gate -/

/-- C3 (as stated) fails: with no key configured, a development-mode request
whose host header names localhost is accepted. -/
theorem validateApiKey_unconfigured_localhost_valid :
    noKeyConfigured { VIDEO_ARCHIVING_API_KEY := none, EXTERNAL_API_KEY := some "",
                      NODE_ENV := some "development" } = true ∧
    validateApiKey
      { VIDEO_ARCHIVING_API_KEY := none, EXTERNAL_API_KEY := some "",
        NODE_ENV := some "development" }
      { host := some "localhost:3000", referer := none, xApiKey := some "anything" } =
      { valid := true, error := none } := by
  decide

/-- C3 (amended): with no key configured, every request that does not take the
development loopback bypass is invalid with the reason `API key not configured`,
whatever key it supplies. -/
theorem validateApiKey_unconfigured (env : Env) (h : Headers)
    (hkey : noKeyConfigured env = true)
    (hbypass : env.NODE_ENV = some "production" ∨ isLocalhost h = false) :
    validateApiKey env h = { valid := false, error := some "API key not configured" } := by
  have hexp : truthy (jsOr env.VIDEO_ARCHIVING_API_KEY env.EXTERNAL_API_KEY) = false := by
    rcases truthy_jsOr_spec env with ⟨ht, _⟩ | ⟨k, hk, hj, _⟩
    · exact ht
    · exfalso
      rcases env with ⟨a, b, c⟩
      simp only [noKeyConfigured, Bool.and_eq_true, Bool.or_eq_true, decide_eq_true_eq] at hkey
      simp only [jsOr] at hj
      rcases hkey with ⟨ha | ha, hb | hb⟩ <;> subst ha <;> subst hb <;>
        simp [truthy] at hj <;> exact hk hj.symm
  have hdev : (decide (env.NODE_ENV ≠ some "production") && isLocalhost h) = false := by
    rcases hbypass with hp | hl
    · simp [hp]
    · simp [hl]
  unfold validateApiKey
  simp only [hdev, hexp]
  simp

/-- Witness of `validateApiKey_unconfigured`: production mode, localhost host
header, no key configured, a key supplied. -/
theorem validateApiKey_unconfigured_witness :
    validateApiKey
      { VIDEO_ARCHIVING_API_KEY := some "", EXTERNAL_API_KEY := none,
        NODE_ENV := some "production" }
      { host := some "localhost:3000", referer := none, xApiKey := some "secret" } =
      { valid := false, error := some "API key not configured" } :=
  validateApiKey_unconfigured
    { VIDEO_ARCHIVING_API_KEY := some "", EXTERNAL_API_KEY := none,
      NODE_ENV := some "production" }
    { host := some "localhost:3000", referer := none, xApiKey := some "secret" }
    (by decide) (Or.inl rfl)

/-! ## Properties of the rate limiter -/

/-- C1 fails on the code: for the identifier `key_1`, limit 100 and window
60000, the cleanup of the 100th call deletes the bucket of the active window,
so the 101st call of the same window is admitted with `remaining = 99`. -/
theorem checkRateLimit_burst_admits_101st :
    burstTicks.length = 101 ∧
    (runChecks "key_1" 100 60000 [] burstTicks).1[99]? =
      some { allowed := true, remaining := 0, resetAt := 1700000040000 } ∧
    (runChecks "key_1" 100 60000 [] burstTicks).1[100]? =
      some { allowed := true, remaining := 99, resetAt := 1700000040000 } := by
  decide

/-- C7 fails on the code: the cleanup run by a call at time 1700000000000 with
window 60000 deletes the bucket of the identifier `key_1` for the window index
`floor(now / windowMs)`, the very bucket the call has just incremented. -/
theorem cleanup_deletes_active_bucket :
    bucketKey "key_1" (1700000000000 / 60000) = "key_1_28333333" ∧
    Store.get [("key_1_28333333", 7)] "key_1_28333333" = some 7 ∧
    (checkRateLimit [("key_1_28333333", 7)] 1700000000000 true "key_1" 100 60000).2.get
      "key_1_28333333" = none ∧
    (checkRateLimit [("key_1_28333333", 7)] 1700000000000 false "key_1" 100 60000).2.get
      "key_1_28333333" = some 8 := by
  decide

/-- Witness of `window_reset`: after two calls in the window of time
1700000000000 that exhaust a limit of 2, the check at the reset time is
admitted with `remaining = 1`. -/
theorem window_reset_witness :
    1 ≤ 2 ∧ 0 < 60000 ∧
    (checkRateLimit
        (runCalls 60000 []
          [{ identifier := "client", maxRequests := 2, now := 1700000000000, draw := false },
           { identifier := "client", maxRequests := 2, now := 1700000039999, draw := true }])
        1700000040000 false "client" 2 60000).1 =
      { allowed := true, remaining := 1, resetAt := 1700000100000 } :=
  ⟨by decide, by decide,
    (window_reset "client" 2 60000 1700000000000 (by decide) (by decide)).2.2.2
      [{ identifier := "client", maxRequests := 2, now := 1700000000000, draw := false },
       { identifier := "client", maxRequests := 2, now := 1700000039999, draw := true }]
      1700000040000 false (by decide) (by decide)⟩

/-! ## Properties of the listing query builder -/

/-- C4 fails on the code: the search `12 Main Street` is not an integer
literal, yet the predicate pushed for it matches the ID 12 as well. -/
theorem search_leading_digits_match_id :
    isIntegerLiteral "12 Main Street" = false ∧
    buildFilters "12 Main Street" none =
      { whereClauses :=
          ["(wr.id = $1 OR wr.address ILIKE $2 OR wr.description ILIKE $2 OR ct.type_name ILIKE $2)"],
        params := [SqlValue.num 12, SqlValue.text "%12 Main Street%"],
        paramIndex := 3 } := by
  decide

/-- C5 fails on the code: the status `2nd review` is not an integer literal,
yet it is matched by the status ID 2 and not by name. -/
theorem status_leading_digits_match_id :
    isIntegerLiteral "2nd review" = false ∧
    buildFilters "" (some "2nd review") =
      { whereClauses := ["wr.status_id = $1"],
        params := [SqlValue.num 2],
        paramIndex := 2 } := by
  decide

/-- C6 fails on the code: for the search `pipe` the WHERE clause refers to the
alias `ct`, which the data query introduces and the count query does not. -/
theorem countQuery_unbound_alias :
    (listQuery pipeSearch).whereClause =
      "WHERE (wr.address ILIKE $1 OR wr.description ILIKE $1 OR ct.type_name ILIKE $1)" ∧
    referencedAliases (listQuery pipeSearch).whereClause = ["wr", "ct"] ∧
    boundAliases (listQuery pipeSearch).countQuery = ["wr"] ∧
    boundAliases (listQuery pipeSearch).dataQuery =
      ["wr", "ct", "s", "t", "d", "u", "ag", "sm"] ∧
    aliasesBound (listQuery pipeSearch).countQuery = false ∧
    aliasesBound (listQuery pipeSearch).dataQuery = true := by
  decide

/-- C9 (as stated) fails: the limit `-5` is bound and echoed as -5, and the
limit `abc` as `NaN`; neither lies in the range from 0 to 500. -/
theorem limit_negative_not_clamped :
    (listQuery (onlyLimit "-5")).limit = some (-5) ∧
    (listQuery (onlyLimit "-5")).dataParams =
      [SqlValue.num (-5), SqlValue.num 0] ∧
    limitInRange (listQuery (onlyLimit "-5")).limit = false ∧
    (listQuery (onlyLimit "abc")).limit = none := by
  decide

theorem effectiveLimit_nat (m : Nat) :
    effectiveLimit (some (natToString m)) = some (min (m : Int) 500) := by
  have hne : natToString m ≠ "" := by
    intro h
    have := congrArg String.data h
    exact natToChars_ne_nil m this
  simp [effectiveLimit, jsOrStr, hne, jsParseInt_natToString m 10 (Or.inr rfl)]

/-- C9 (amended): the effective limit never exceeds 500. It is `NaN` or an
integer at most 500; it is the value bound as the last-but-one parameter of the
data query; a limit written as a natural number `m` gives `min m 500`, which
lies between 0 and 500 and is 500 above 500; an absent or empty limit gives 100. -/
theorem limit_at_most_500 (p : ListParams) :
    ((listQuery p).limit = none ∨ ∃ n : Int, (listQuery p).limit = some n ∧ n ≤ 500) ∧
    (listQuery p).dataParams = (listQuery p).countParams ++
      [SqlValue.ofNumber (listQuery p).limit, SqlValue.ofNumber (listQuery p).offset] ∧
    (∀ m : Nat, effectiveLimit (some (natToString m)) = some (min (m : Int) 500) ∧
      limitInRange (effectiveLimit (some (natToString m))) = true) ∧
    effectiveLimit (some (natToString 10000)) = some 500 ∧
    limitInRange (effectiveLimit none) = true ∧
    limitInRange (effectiveLimit (some "")) = true := by
  refine ⟨?_, rfl, ?_, ?_, by decide, by decide⟩
  · show effectiveLimit p.limit = none ∨ ∃ n : Int, effectiveLimit p.limit = some n ∧ n ≤ 500
    unfold effectiveLimit
    cases jsParseInt (jsOrStr p.limit "100") 10 with
    | none => exact Or.inl rfl
    | some n => exact Or.inr ⟨min n 500, rfl, min_le_right _ _⟩
  · intro m
    refine ⟨effectiveLimit_nat m, ?_⟩
    rw [effectiveLimit_nat]
    simp [limitInRange]
  · rw [effectiveLimit_nat]; rfl

/-- C10 (as stated) fails: the limit `0` yields 0, not the default 100. -/
theorem limit_zero_not_defaulted :
    (listQuery (onlyLimit "0")).limit = some 0 ∧
    (listQuery (onlyLimit "0")).limit ≠ some 100 := by
  decide

/-- C10 (amended): an absent or empty limit yields the default 100, whatever
the other parameters are; the limit `0` yields 0. -/
theorem limit_default (search filter status offset : Option String) :
    (listQuery { search := search, filter := filter, status := status,
                 limit := none, offset := offset }).limit = some 100 ∧
    (listQuery { search := search, filter := filter, status := status,
                 limit := some "", offset := offset }).limit = some 100 ∧
    (listQuery { search := search, filter := filter, status := status,
                 limit := some "0", offset := offset }).limit = some 0 := by
  refine ⟨?_, ?_, ?_⟩
  · show effectiveLimit none = some 100
    decide
  · show effectiveLimit (some "") = some 100
    decide
  · show effectiveLimit (some "0") = some 0
    decide

/-! ## Texts that start with an integer -/

theorem radixDigit_ten (c : Char) :
    radixDigit 10 c = if 48 ≤ c.toNat ∧ c.toNat ≤ 57 then some (c.toNat - 48) else none := by
  unfold radixDigit digitValue
  by_cases h1 : 48 ≤ c.toNat ∧ c.toNat ≤ 57
  · have h2 : c.toNat - 48 < 10 := by omega
    simp [h1, h2]
  · by_cases h3 : 97 ≤ c.toNat ∧ c.toNat ≤ 122
    · have h4 : ¬ (c.toNat - 97 + 10 < 10) := by omega
      simp [h1, h3, h4]
    · by_cases h5 : 65 ≤ c.toNat ∧ c.toNat ≤ 90
      · have h6 : ¬ (c.toNat - 65 + 10 < 10) := by omega
        simp [h1, h3, h5, h6]
      · simp [h1, h3, h5]

/-- With radix 10, `parseInt` returns `NaN` exactly on the texts that do not
start with an integer. -/
theorem jsParseInt_none_iff (s : String) :
    jsParseInt s 10 = none ↔ startsWithInteger s = false := by
  unfold jsParseInt startsWithInteger parseIntChars
  rcases hts : takeSign (dropWhiteSpace s.data) with ⟨neg, body⟩
  cases body with
  | nil => simp [leadingDigits]
  | cons c cs =>
    by_cases hc : 48 ≤ c.toNat ∧ c.toNat ≤ 57
    · simp [leadingDigits, radixDigit_ten, hc]
    · have hc2 : (decide (48 ≤ c.toNat) && decide (c.toNat ≤ 57)) = false := by
        simpa using hc
      simp [leadingDigits, radixDigit_ten, hc, hc2]

/-! ## Properties of the request handlers -/

theorem passGate_of_passesGate (c : RequestCtx) (h : passesGate c = true) :
    ∃ rl st, passGate c = (GateOutcome.passed rl, st) := by
  simp only [passesGate, Bool.and_eq_true] at h
  unfold passGate
  simp [h.1, h.2]

theorem getById_of_passesGate (c : RequestCtx) (id : String) (db : Database)
    (h : passesGate c = true) : (getById c id db).1 = getByIdCore id db := by
  obtain ⟨rl, st, hp⟩ := passGate_of_passesGate c h
  simp [getById, hp]

theorem beforeContent_of_passesGate (c : RequestCtx) (id : String) (db : Database)
    (h : passesGate c = true) : (beforeContent c id db).1 = beforeContentCore id db := by
  obtain ⟨rl, st, hp⟩ := passGate_of_passesGate c h
  simp [beforeContent, hp]

theorem videos_of_passesGate (c : RequestCtx) (id : String) (db : Database)
    (h : passesGate c = true) : (videos c id db).1 = videosCore id db := by
  obtain ⟨rl, st, hp⟩ := passGate_of_passesGate c h
  simp [videos, hp]

theorem verify_of_passesGate (c : RequestCtx) (body : RequestBody) (db : Database)
    (h : passesGate c = true) : (verify c body db).1 = verifyCore body db := by
  obtain ⟨rl, st, hp⟩ := passGate_of_passesGate c h
  simp [verify, hp]

theorem verifyCore_unparsed (v : JsonValue) (text : String) (db : Database)
    (ht : jsToString v = some text) (hp : jsParseInt text 10 = none) :
    (verifyCore (RequestBody.json (some v)) db).status = 400 := by
  unfold verifyCore
  by_cases hv : jsTruthy v = true
  · simp [hv, ht, hp]
  · simp [hv]

/-- C11 (as stated) fails: for a request that passes the auth gate and the rate
limiter, verify answers 500, not 400, to a body that is the JSON `null` and to a
body that is not JSON (neither has a `work_request_id`), and to a
`work_request_id` that is an object without a string conversion (present, not an
integer). -/
theorem verify_unreadable_answered_500 :
    passesGate sampleCtx = true ∧
    (verify sampleCtx RequestBody.jsonNull emptyDb).1 =
      { status := 500, body := Payload.error (some "Internal server error") } ∧
    (verify sampleCtx RequestBody.malformed emptyDb).1 =
      { status := 500, body := Payload.error (some "Internal server error") } ∧
    (verify sampleCtx (RequestBody.json (some (JsonValue.composite none))) emptyDb).1 =
      { status := 500, body := Payload.error (some "Internal server error") } := by
  decide

/-- C11 (amended): for a request that passes the auth gate and the rate
limiter, get-by-id, before-content and videos answer 400 to every path id that
does not start with an integer (no decimal digit after leading white space and
an optional sign); verify answers 400 to every JSON body other than `null`
whose `work_request_id` is absent or is a value whose string conversion does
not start with an integer, and answers 500 to a body that is not JSON, to the
JSON `null`, and to a truthy `work_request_id` without a string conversion. -/
theorem invalid_id_answered_400 (c : RequestCtx) (db : Database)
    (hgate : passesGate c = true) :
    (∀ id : String, startsWithInteger id = false →
      (getById c id db).1.status = 400 ∧
      (beforeContent c id db).1.status = 400 ∧
      (videos c id db).1.status = 400) ∧
    (verify c (RequestBody.json none) db).1.status = 400 ∧
    (∀ (v : JsonValue) (text : String), jsToString v = some text →
      startsWithInteger text = false →
      (verify c (RequestBody.json (some v)) db).1.status = 400) ∧
    (verify c RequestBody.malformed db).1.status = 500 ∧
    (verify c RequestBody.jsonNull db).1.status = 500 ∧
    (∀ v : JsonValue, jsTruthy v = true → jsToString v = none →
      (verify c (RequestBody.json (some v)) db).1.status = 500) := by
  refine ⟨?_, ?_, ?_, ?_, ?_, ?_⟩
  · intro id hid
    have hp := (jsParseInt_none_iff id).mpr hid
    rw [getById_of_passesGate c id db hgate, beforeContent_of_passesGate c id db hgate,
      videos_of_passesGate c id db hgate]
    simp [getByIdCore, beforeContentCore, videosCore, hp]
  · rw [verify_of_passesGate c _ db hgate]
    rfl
  · intro v text ht hs
    rw [verify_of_passesGate c _ db hgate]
    exact verifyCore_unparsed v text db ht ((jsParseInt_none_iff text).mpr hs)
  · rw [verify_of_passesGate c _ db hgate]
    rfl
  · rw [verify_of_passesGate c _ db hgate]
    rfl
  · intro v hv ht
    rw [verify_of_passesGate c _ db hgate]
    simp [verifyCore, hv, ht, internalError]

/-- Witness of `invalid_id_answered_400`: the path id `abc`, the empty body
object, the `work_request_id` `abc` and the JSON `null` body on a request with
the configured key. -/
theorem invalid_id_answered_400_witness :
    passesGate sampleCtx = true ∧
    startsWithInteger "abc" = false ∧
    (getById sampleCtx "abc" emptyDb).1.status = 400 ∧
    (beforeContent sampleCtx "abc" emptyDb).1.status = 400 ∧
    (videos sampleCtx "abc" emptyDb).1.status = 400 ∧
    (verify sampleCtx (RequestBody.json none) emptyDb).1.status = 400 ∧
    (verify sampleCtx (RequestBody.json (some (JsonValue.str "abc"))) emptyDb).1.status = 400 ∧
    (verify sampleCtx RequestBody.jsonNull emptyDb).1.status = 500 :=
  ⟨by decide, by decide,
   ((invalid_id_answered_400 sampleCtx emptyDb (by decide)).1 "abc" (by decide)).1,
   ((invalid_id_answered_400 sampleCtx emptyDb (by decide)).1 "abc" (by decide)).2.1,
   ((invalid_id_answered_400 sampleCtx emptyDb (by decide)).1 "abc" (by decide)).2.2,
   (invalid_id_answered_400 sampleCtx emptyDb (by decide)).2.1,
   (invalid_id_answered_400 sampleCtx emptyDb (by decide)).2.2.1 (JsonValue.str "abc") "abc"
     rfl (by decide),
   (invalid_id_answered_400 sampleCtx emptyDb (by decide)).2.2.2.2.1⟩

/-- A path id that starts with digits passes the validation although it is not
an integer literal: `12abc` is looked up as the ID 12. -/
theorem getById_digit_prefix_accepted :
    (getById sampleCtx "12abc" emptyDb).1 =
      { status := 404, body := Payload.error (some "Work request not found") } := by
  decide

/-- A verify body that is not JSON, or is the JSON `null`, is answered 500. -/
theorem verify_unreadable_body (c : RequestCtx) (db : Database)
    (hgate : passesGate c = true) :
    (verify c RequestBody.malformed db).1 = internalError ∧
    (verify c RequestBody.jsonNull db).1 = internalError := by
  rw [verify_of_passesGate c _ db hgate, verify_of_passesGate c _ db hgate]
  exact ⟨rfl, rfl⟩

theorem intToString_data_neg (m : Nat) :
    (intToString (Int.negSucc m)).data = '-' :: natToChars (m + 1) := by
  simp [intToString, natToString]

theorem jsParseInt_intToString (n : Int) : jsParseInt (intToString n) 10 = some n := by
  cases n with
  | ofNat m => exact jsParseInt_natToString m 10 (Or.inr rfl)
  | negSucc m =>
    unfold jsParseInt
    rw [intToString_data_neg]
    have hd := natToChars_digits (m + 1)
    have hne := natToChars_ne_nil (m + 1)
    have hv := charValues_ne_nil _ hne
    unfold parseIntChars
    have h1 : dropWhiteSpace ('-' :: natToChars (m + 1)) = '-' :: natToChars (m + 1) := by
      simp [dropWhiteSpace, isStrWhiteSpace]
    rw [h1]
    have h2 : takeSign ('-' :: natToChars (m + 1)) = (true, natToChars (m + 1)) := rfl
    rw [h2]
    cases hcv : charValues (natToChars (m + 1)) with
    | nil => exact absurd hcv hv
    | cons d ds =>
      have hval := natToChars_value (m + 1)
      rw [hcv] at hval
      simp [leadingDigits_dec _ hd, hcv, hval, Int.negSucc_eq]

/-- For a request that passes the auth gate and the rate limiter, get-by-id
answers 404 with the body
`error: Work request not found` when the store returns no row for the parsed ID. -/
theorem getById_not_found (c : RequestCtx) (db : Database) (id : String) (n : Int)
    (hgate : passesGate c = true) (hid : jsParseInt id 10 = some n)
    (hconn : db.connects = true)
    (hrows : db.query byIdQueryText [SqlValue.num n] = QueryResult.rows []) :
    (getById c id db).1 =
      { status := 404, body := Payload.error (some "Work request not found") } := by
  rw [getById_of_passesGate c id db hgate]
  simp [getByIdCore, hid, hconn, hrows]

/-- For a request that passes the auth gate and the rate limiter, verify
answers 200 with `exists: false`
and `valid: false` when the `work_request_id` is truthy, parses to an ID and
the store returns no row for it. -/
theorem verify_not_found (c : RequestCtx) (db : Database) (v : JsonValue) (text : String)
    (n : Int) (hgate : passesGate c = true) (hv : jsTruthy v = true)
    (ht : jsToString v = some text) (hid : jsParseInt text 10 = some n)
    (hconn : db.connects = true)
    (hrows : db.query verifyQueryText [SqlValue.num n] = QueryResult.rows []) :
    (verify c (RequestBody.json (some v)) db).1 =
      { status := 200,
        body := Payload.verify false false (some "Work request not found") none } := by
  rw [verify_of_passesGate c _ db hgate]
  simp [verifyCore, hv, ht, hid, hconn, hrows]

/-- For every integer ID other than 0 that the store has no row for, get-by-id
answers 404 and verify, given the ID as a JSON number, answers 200 with
`exists: false` and `valid: false`. -/
theorem not_found_nonzero (c : RequestCtx) (db : Database) (n : Int)
    (hgate : passesGate c = true) (hn : n ≠ 0) (hconn : db.connects = true)
    (hrows1 : db.query byIdQueryText [SqlValue.num n] = QueryResult.rows [])
    (hrows2 : db.query verifyQueryText [SqlValue.num n] = QueryResult.rows []) :
    (getById c (intToString n) db).1 =
      { status := 404, body := Payload.error (some "Work request not found") } ∧
    (verify c (RequestBody.json (some (JsonValue.int n))) db).1 =
      { status := 200,
        body := Payload.verify false false (some "Work request not found") none } := by
  refine ⟨getById_not_found c db _ n hgate (jsParseInt_intToString n) hconn hrows1,
    verify_not_found c db _ (intToString n) n hgate ?_ rfl (jsParseInt_intToString n)
      hconn hrows2⟩
  simp [jsTruthy, hn]

/-- C12 fails on the code: for the ID 0, which the store has no row for,
get-by-id answers 404 with `error: Work request not found`, but verify with
`work_request_id: 0` answers 400 with `work_request_id is required`. -/
theorem verify_zero_id_rejected :
    passesGate sampleCtx = true ∧
    emptyDb.query verifyQueryText [SqlValue.num 0] = QueryResult.rows [] ∧
    (getById sampleCtx "0" emptyDb).1 =
      { status := 404, body := Payload.error (some "Work request not found") } ∧
    (verify sampleCtx (RequestBody.json (some (JsonValue.int 0))) emptyDb).1 =
      { status := 400, body := Payload.error (some "work_request_id is required") } ∧
    (verify sampleCtx (RequestBody.json (some (JsonValue.str "0"))) emptyDb).1 =
      { status := 200,
        body := Payload.verify false false (some "Work request not found") none } := by
  decide

/-! ## Properties of the SQL text and its parameters -/

theorem placeholders_kinds (sk tk : FilterKind) :
    placeholders (whereClauseOf (clausesOfKinds sk tk).1) = placeholdersOfKinds sk tk ∧
    placeholders (countQueryText (whereClauseOf (clausesOfKinds sk tk).1)) =
      placeholdersOfKinds sk tk ∧
    placeholders (dataQueryText (whereClauseOf (clausesOfKinds sk tk).1)
        (clausesOfKinds sk tk).2) =
      placeholdersOfKinds sk tk ++ [(clausesOfKinds sk tk).2, (clausesOfKinds sk tk).2 + 1] ∧
    (placeholdersOfKinds sk tk).eraseDups = List.range' 1 ((clausesOfKinds sk tk).2 - 1) := by
  cases sk <;> cases tk <;> decide

/-- The values the builder pushes are the values of the search followed by the
value of the status, and the next placeholder index is their number plus one. -/
theorem buildFilters_params (search : String) (status : Option String) :
    (buildFilters search status).params = searchValues search ++ statusValues status ∧
    (buildFilters search status).paramIndex =
      (searchValues search ++ statusValues status).length + 1 := by
  unfold buildFilters
  by_cases hs : search = ""
  · cases status with
    | none => simp [addSearch, addStatus, searchValues, statusValues, hs]
    | some st =>
      by_cases hst : st = ""
      · simp [addSearch, addStatus, searchValues, statusValues, hs, hst]
      · cases hp : jsParseInt st 10 with
        | none => simp [addSearch, addStatus, searchValues, statusValues, likePattern, hs, hst, hp]
        | some v => simp [addSearch, addStatus, searchValues, statusValues, hs, hst, hp]
  · cases hq : jsParseInt search 10 with
    | none =>
      cases status with
      | none => simp [addSearch, addStatus, searchValues, statusValues, likePattern, hs, hq]
      | some st =>
        by_cases hst : st = ""
        · simp [addSearch, addStatus, searchValues, statusValues, likePattern, hs, hq, hst]
        · cases hp : jsParseInt st 10 with
          | none =>
            simp [addSearch, addStatus, searchValues, statusValues, likePattern, hs, hq, hst, hp]
          | some v =>
            simp [addSearch, addStatus, searchValues, statusValues, likePattern, hs, hq, hst, hp]
    | some n =>
      cases status with
      | none => simp [addSearch, addStatus, searchValues, statusValues, likePattern, hs, hq]
      | some st =>
        by_cases hst : st = ""
        · simp [addSearch, addStatus, searchValues, statusValues, likePattern, hs, hq, hst]
        · cases hp : jsParseInt st 10 with
          | none =>
            simp [addSearch, addStatus, searchValues, statusValues, likePattern, hs, hq, hst, hp]
          | some v =>
            simp [addSearch, addStatus, searchValues, statusValues, likePattern, hs, hq, hst, hp]

/-- Two listing requests whose search values are treated alike by the builder
(both empty, both read as a number by `parseInt`, or both read as text) and
whose status values are treated alike get the same WHERE clause, the same count
query text and the same data query text, whatever the search, status, limit and
offset values are; the values are in the parameter lists. -/
theorem sql_text_independent_of_values (p q : ListParams)
    (hs : filterKind (some (searchOf p)) = filterKind (some (searchOf q)))
    (ht : filterKind p.status = filterKind q.status) :
    (listQuery p).whereClause = (listQuery q).whereClause ∧
    (listQuery p).countQuery = (listQuery q).countQuery ∧
    (listQuery p).dataQuery = (listQuery q).dataQuery ∧
    (listQuery p).countParams = searchValues (searchOf p) ++ statusValues p.status ∧
    (listQuery p).dataParams = searchValues (searchOf p) ++ statusValues p.status ++
      [SqlValue.ofNumber (effectiveLimit p.limit), SqlValue.ofNumber (effectiveOffset p.offset)] := by
  have hp := buildFilters_kinds (searchOf p) p.status
  have hq := buildFilters_kinds (searchOf q) q.status
  have hv := (buildFilters_params (searchOf p) p.status).1
  simp only [listQuery, hp.1, hp.2, hq.1, hq.2, hs, ht, hv, and_self]

/-- An instance of `sql_text_independent_of_values`: a plain text search and a
search carrying SQL syntax get the same three texts. -/
theorem sql_text_independent_of_values_witness :
    filterKind (some (searchOf plainRequest)) = filterKind (some (searchOf hostileRequest)) ∧
    filterKind plainRequest.status = filterKind hostileRequest.status ∧
    (listQuery plainRequest).whereClause = (listQuery hostileRequest).whereClause ∧
    (listQuery plainRequest).countQuery = (listQuery hostileRequest).countQuery ∧
    (listQuery plainRequest).dataQuery = (listQuery hostileRequest).dataQuery :=
  ⟨by decide, by decide,
   (sql_text_independent_of_values plainRequest hostileRequest (by decide) (by decide)).1,
   (sql_text_independent_of_values plainRequest hostileRequest (by decide) (by decide)).2.1,
   (sql_text_independent_of_values plainRequest hostileRequest (by decide) (by decide)).2.2.1⟩

theorem ne_of_includes (a b pat : String) (ha : jsIncludes a pat = true)
    (hb : jsIncludes b pat = false) : a ≠ b := by
  intro h
  rw [h, hb] at ha
  exact Bool.noConfusion ha

/-- The three texts agree for two requests whose values are in the same class
of the specification (empty, integer literal, other), provided the builder
reads each value as the specification classes it. -/
theorem sql_text_same_when_classes_agree (p q : ListParams)
    (hp1 : specKind (some (searchOf p)) = filterKind (some (searchOf p)))
    (hp2 : specKind p.status = filterKind p.status)
    (hq1 : specKind (some (searchOf q)) = filterKind (some (searchOf q)))
    (hq2 : specKind q.status = filterKind q.status)
    (hs : specKind (some (searchOf p)) = specKind (some (searchOf q)))
    (ht : specKind p.status = specKind q.status) :
    (listQuery p).whereClause = (listQuery q).whereClause ∧
    (listQuery p).countQuery = (listQuery q).countQuery ∧
    (listQuery p).dataQuery = (listQuery q).dataQuery := by
  have h := sql_text_independent_of_values p q (by rw [← hp1, ← hq1, hs])
    (by rw [← hp2, ← hq2, ht])
  exact ⟨h.1, h.2.1, h.2.2.1⟩

/-- C14 fails on the code: the searches `12 Main Street` and `pipe` are both
non-empty and non-numeric (neither is an integer literal) and both requests
have no status, yet the WHERE clause, the count query text and the data query
text of the first differ from those of the second: the first has the ID
comparison, because `parseInt` reads the leading 12. -/
theorem sql_text_differs_within_class :
    specKind (some (searchOf streetSearch)) = FilterKind.text ∧
    specKind (some (searchOf pipeSearch)) = FilterKind.text ∧
    specKind streetSearch.status = specKind pipeSearch.status ∧
    (listQuery streetSearch).whereClause =
      "WHERE (wr.id = $1 OR wr.address ILIKE $2 OR wr.description ILIKE $2 OR ct.type_name ILIKE $2)" ∧
    (listQuery pipeSearch).whereClause =
      "WHERE (wr.address ILIKE $1 OR wr.description ILIKE $1 OR ct.type_name ILIKE $1)" ∧
    (listQuery streetSearch).whereClause ≠ (listQuery pipeSearch).whereClause ∧
    (listQuery streetSearch).countQuery ≠ (listQuery pipeSearch).countQuery ∧
    (listQuery streetSearch).dataQuery ≠ (listQuery pipeSearch).dataQuery := by
  refine ⟨by decide, by decide, by decide, by decide, by decide, by decide, ?_, ?_⟩
  · exact ne_of_includes _ _ "wr.id = $1" (by decide) (by decide)
  · exact ne_of_includes _ _ "wr.id = $1" (by decide) (by decide)

theorem boundValues_cases (search : String) (status : Option String) (l o : SqlValue) :
    (placeholdersOfKinds (filterKind (some search)) (filterKind status)).map
        (fun i => if i = 0 then none
          else (searchValues search ++ statusValues status)[i - 1]?) =
      (searchRefs search ++ statusValues status).map some ∧
    (placeholdersOfKinds (filterKind (some search)) (filterKind status) ++
        [(searchValues search ++ statusValues status).length + 1,
         (searchValues search ++ statusValues status).length + 1 + 1]).map
        (fun i => if i = 0 then none
          else (searchValues search ++ statusValues status ++ [l, o])[i - 1]?) =
      (searchRefs search ++ statusValues status).map some ++ [some l, some o] := by
  by_cases hs : search = ""
  · cases status with
    | none => simp [filterKind, placeholdersOfKinds, searchValues, statusValues, searchRefs, hs]
    | some st =>
      by_cases hst : st = ""
      · simp [filterKind, placeholdersOfKinds, searchValues, statusValues, searchRefs, hs, hst]
      · cases hp : jsParseInt st 10 with
        | none =>
          simp [filterKind, placeholdersOfKinds, searchValues, statusValues, searchRefs,
            hs, hst, hp]
        | some v =>
          simp [filterKind, placeholdersOfKinds, searchValues, statusValues, searchRefs,
            hs, hst, hp]
  · cases hq : jsParseInt search 10 with
    | none =>
      cases status with
      | none =>
        simp [filterKind, placeholdersOfKinds, searchValues, statusValues, searchRefs, hs, hq]
      | some st =>
        by_cases hst : st = ""
        · simp [filterKind, placeholdersOfKinds, searchValues, statusValues, searchRefs,
            hs, hq, hst]
        · cases hp : jsParseInt st 10 with
          | none =>
            simp [filterKind, placeholdersOfKinds, searchValues, statusValues, searchRefs,
              hs, hq, hst, hp]
          | some v =>
            simp [filterKind, placeholdersOfKinds, searchValues, statusValues, searchRefs,
              hs, hq, hst, hp]
    | some n =>
      cases status with
      | none =>
        simp [filterKind, placeholdersOfKinds, searchValues, statusValues, searchRefs, hs, hq]
      | some st =>
        by_cases hst : st = ""
        · simp [filterKind, placeholdersOfKinds, searchValues, statusValues, searchRefs,
            hs, hq, hst]
        · cases hp : jsParseInt st 10 with
          | none =>
            simp [filterKind, placeholdersOfKinds, searchValues, statusValues, searchRefs,
              hs, hq, hst, hp]
          | some v =>
            simp [filterKind, placeholdersOfKinds, searchValues, statusValues, searchRefs,
              hs, hq, hst, hp]

theorem searchValues_length_le (search : String) : (searchValues search).length ≤ 2 := by
  unfold searchValues
  split
  · simp
  · split <;> simp

theorem statusValues_length_le (status : Option String) : (statusValues status).length ≤ 1 := by
  unfold statusValues
  split
  · simp
  · split
    · simp
    · split <;> simp

/-- C15: the filter predicates of the listing handler bind at most three
values, the values of the search before the value of the status; the WHERE
clause uses exactly the placeholders 1 to k, where k is the number of values,
and each placeholder occurrence refers to the value pushed for its comparison;
the count query has the placeholders of the WHERE clause and is run with the k
values; the data query adds the placeholders k+1 and k+2 for LIMIT and OFFSET
and is run with the k values followed by limit and offset. -/
theorem placeholders_line_up (p : ListParams) :
    (listQuery p).countParams.length ≤ 3 ∧
    (listQuery p).countParams = searchValues (searchOf p) ++ statusValues p.status ∧
    (placeholders (listQuery p).whereClause).eraseDups =
      List.range' 1 (listQuery p).countParams.length ∧
    boundValues (listQuery p).whereClause (listQuery p).countParams =
      (searchRefs (searchOf p) ++ statusValues p.status).map some ∧
    placeholders (listQuery p).countQuery = placeholders (listQuery p).whereClause ∧
    placeholders (listQuery p).dataQuery =
      placeholders (listQuery p).whereClause ++
        [(listQuery p).countParams.length + 1, (listQuery p).countParams.length + 2] ∧
    (listQuery p).dataParams =
      (listQuery p).countParams ++
        [SqlValue.ofNumber (listQuery p).limit, SqlValue.ofNumber (listQuery p).offset] ∧
    boundValues (listQuery p).dataQuery (listQuery p).dataParams =
      (searchRefs (searchOf p) ++ statusValues p.status).map some ++
        [some (SqlValue.ofNumber (listQuery p).limit),
         some (SqlValue.ofNumber (listQuery p).offset)] := by
  have hk := buildFilters_kinds (searchOf p) p.status
  have hv := buildFilters_params (searchOf p) p.status
  have hpl := placeholders_kinds (filterKind (some (searchOf p))) (filterKind p.status)
  have hb := boundValues_cases (searchOf p) p.status
    (SqlValue.ofNumber (effectiveLimit p.limit)) (SqlValue.ofNumber (effectiveOffset p.offset))
  have hidx : (clausesOfKinds (filterKind (some (searchOf p))) (filterKind p.status)).2 =
      (searchValues (searchOf p) ++ statusValues p.status).length + 1 := by
    rw [← hk.2, hv.2]
  have h1 := searchValues_length_le (searchOf p)
  have h2 := statusValues_length_le p.status
  simp only [listQuery, boundValues, hk.1, hk.2, hv.1]
  rw [hpl.1, hpl.2.1, hpl.2.2.1, hpl.2.2.2, hidx]
  refine ⟨?_, trivial, ?_, hb.1, rfl, rfl, trivial, hb.2⟩
  · rw [List.length_append]; omega
  · simp

/-! ## Properties of the downstream client -/

theorem tryCatch_ok {α : Type} (body : Except JsError α) (f : JsError → α) :
    ∃ r, tryCatch body (fun e => Except.ok (f e)) = Except.ok r := by
  cases body with
  | ok a => exact ⟨a, rfl⟩
  | error e => exact ⟨f e, rfl⟩

theorem throwApiError_throws (r : HttpResponse) :
    ∃ e, (throwApiError r : Except JsError ClientResult) = Except.error e := by
  unfold throwApiError
  cases hj : r.json with
  | error m => simp [jsTruthy, templateValue, jsToString]
  | ok j =>
    cases j with
    | null => exact ⟨_, rfl⟩
    | value errorField =>
      cases errorField with
      | none => exact ⟨_, rfl⟩
      | some v =>
        by_cases hv : jsTruthy v = true
        · simp only [hv, if_true]
          cases ht : templateValue (some v) with
          | ok text => exact ⟨_, rfl⟩
          | error e => exact ⟨_, rfl⟩
        · simp [hv]

theorem fetchList_failure (rt : Runtime) (url : String)
    (hf : (rt.fetch url).isFailure = true) : ∃ e, fetchList rt url = Except.error e := by
  unfold fetchList
  cases hο : rt.fetch url with
  | networkError m => exact ⟨_, rfl⟩
  | timeout m => exact ⟨_, rfl⟩
  | response r =>
    rw [hο] at hf
    simp only [FetchOutcome.isFailure] at hf
    simp only [hf, if_true]
    exact throwApiError_throws r

theorem fetchOne_failure (rt : Runtime) (url notFound : String)
    (hf : (rt.fetch url).isFailure = true) :
    (∃ e, fetchOne rt url notFound = Except.error e) ∨
    fetchOne rt url notFound =
      Except.ok (ClientResult.structured false notFound DataShape.null) := by
  unfold fetchOne
  cases hο : rt.fetch url with
  | networkError m => exact Or.inl ⟨_, rfl⟩
  | timeout m => exact Or.inl ⟨_, rfl⟩
  | response r =>
    rw [hο] at hf
    simp only [FetchOutcome.isFailure] at hf
    simp only [hf, if_true]
    by_cases h4 : r.status = 404
    · right; simp [h4]
    · left; simp only [h4, if_false]; exact throwApiError_throws r

theorem listCall_degraded (body : Except JsError ClientResult)
    (h : ∃ e, body = Except.error e) :
    ∃ msg, tryCatch body (fun error =>
      Except.ok (ClientResult.structured false error.message DataShape.emptyList)) =
      Except.ok (ClientResult.structured false msg DataShape.emptyList) := by
  obtain ⟨e, he⟩ := h
  exact ⟨e.message, by rw [he]; rfl⟩

theorem oneCall_degraded (body : Except JsError ClientResult) (notFound : String)
    (h : (∃ e, body = Except.error e) ∨
      body = Except.ok (ClientResult.structured false notFound DataShape.null)) :
    ∃ msg, tryCatch body (fun error =>
      Except.ok (ClientResult.structured false error.message DataShape.null)) =
      Except.ok (ClientResult.structured false msg DataShape.null) := by
  rcases h with ⟨e, he⟩ | he
  · exact ⟨e.message, by rw [he]; rfl⟩
  · exact ⟨notFound, by rw [he]; rfl⟩

theorem returnJson_cases (r : HttpResponse) :
    (∃ e, returnJson r = Except.error e) ∨
    (∃ j, r.json = Except.ok j ∧ returnJson r = Except.ok (ClientResult.body j)) := by
  unfold returnJson
  cases hj : r.json with
  | error m => exact Or.inl ⟨_, rfl⟩
  | ok j => exact Or.inr ⟨j, rfl, rfl⟩

/-- The list calls leave the `try` block by a throw, or by returning the parsed
body of an OK response. -/
theorem fetchList_cases (rt : Runtime) (url : String) :
    (∃ e, fetchList rt url = Except.error e) ∨
    (∃ r j, rt.fetch url = FetchOutcome.response r ∧ r.ok = true ∧ r.json = Except.ok j ∧
      fetchList rt url = Except.ok (ClientResult.body j)) := by
  by_cases hf : (rt.fetch url).isFailure = true
  · exact Or.inl (fetchList_failure rt url hf)
  · unfold fetchList
    cases hο : rt.fetch url with
    | networkError m => rw [hο] at hf; exact absurd rfl hf
    | timeout m => rw [hο] at hf; exact absurd rfl hf
    | response r =>
      rw [hο] at hf
      simp only [FetchOutcome.isFailure, Bool.not_eq_true, Bool.not_eq_false'] at hf
      simp only [hf, Bool.not_true, Bool.false_eq_true, if_false]
      rcases returnJson_cases r with h | ⟨j, hj, hr⟩
      · exact Or.inl h
      · exact Or.inr ⟨r, j, rfl, hf, hj, hr⟩

/-- The by-id calls leave the `try` block by a throw, by the structured 404
answer, or by returning the parsed body of an OK response. -/
theorem fetchOne_cases (rt : Runtime) (url notFound : String) :
    ((∃ e, fetchOne rt url notFound = Except.error e) ∨
      fetchOne rt url notFound =
        Except.ok (ClientResult.structured false notFound DataShape.null)) ∨
    (∃ r j, rt.fetch url = FetchOutcome.response r ∧ r.ok = true ∧ r.json = Except.ok j ∧
      fetchOne rt url notFound = Except.ok (ClientResult.body j)) := by
  by_cases hf : (rt.fetch url).isFailure = true
  · exact Or.inl (fetchOne_failure rt url notFound hf)
  · unfold fetchOne
    cases hο : rt.fetch url with
    | networkError m => rw [hο] at hf; exact absurd rfl hf
    | timeout m => rw [hο] at hf; exact absurd rfl hf
    | response r =>
      rw [hο] at hf
      simp only [FetchOutcome.isFailure, Bool.not_eq_true, Bool.not_eq_false'] at hf
      simp only [hf, Bool.not_true, Bool.false_eq_true, if_false]
      rcases returnJson_cases r with h | ⟨j, hj, hr⟩
      · exact Or.inl (Or.inl h)
      · exact Or.inr ⟨r, j, rfl, hf, hj, hr⟩

theorem listCall_cases (rt : Runtime) (body : Except JsError ClientResult)
    (h : (∃ e, body = Except.error e) ∨
      (∃ url r j, rt.fetch url = FetchOutcome.response r ∧ r.ok = true ∧
        r.json = Except.ok j ∧ body = Except.ok (ClientResult.body j))) :
    (∃ msg, tryCatch body (fun error =>
      Except.ok (ClientResult.structured false error.message DataShape.emptyList)) =
      Except.ok (ClientResult.structured false msg DataShape.emptyList)) ∨
    (∃ url r j, rt.fetch url = FetchOutcome.response r ∧ r.ok = true ∧ r.json = Except.ok j ∧
      tryCatch body (fun error =>
        Except.ok (ClientResult.structured false error.message DataShape.emptyList)) =
        Except.ok (ClientResult.body j)) := by
  rcases h with ⟨e, he⟩ | ⟨url, r, j, h1, h2, h3, h4⟩
  · exact Or.inl ⟨e.message, by rw [he]; rfl⟩
  · exact Or.inr ⟨url, r, j, h1, h2, h3, by rw [h4]; rfl⟩

theorem oneCall_cases (rt : Runtime) (body : Except JsError ClientResult) (notFound : String)
    (h : ((∃ e, body = Except.error e) ∨
        body = Except.ok (ClientResult.structured false notFound DataShape.null)) ∨
      (∃ url r j, rt.fetch url = FetchOutcome.response r ∧ r.ok = true ∧
        r.json = Except.ok j ∧ body = Except.ok (ClientResult.body j))) :
    (∃ msg, tryCatch body (fun error =>
      Except.ok (ClientResult.structured false error.message DataShape.null)) =
      Except.ok (ClientResult.structured false msg DataShape.null)) ∨
    (∃ url r j, rt.fetch url = FetchOutcome.response r ∧ r.ok = true ∧ r.json = Except.ok j ∧
      tryCatch body (fun error =>
        Except.ok (ClientResult.structured false error.message DataShape.null)) =
        Except.ok (ClientResult.body j)) := by
  rcases h with (⟨e, he⟩ | he) | ⟨url, r, j, h1, h2, h3, h4⟩
  · exact Or.inl ⟨e.message, by rw [he]; rfl⟩
  · exact Or.inl ⟨notFound, by rw [he]; rfl⟩
  · exact Or.inr ⟨url, r, j, h1, h2, h3, by rw [h4]; rfl⟩

/-- Each client call resolves with the structured failure object, or with the
parsed body of an OK response of the sibling system. -/
theorem client_results (rt : Runtime) (filters : FiltersArg) (id : Option JsonValue) :
    ((∃ msg, getDivisions rt filters =
        Except.ok (ClientResult.structured false msg DataShape.emptyList)) ∨
      (∃ url r j, rt.fetch url = FetchOutcome.response r ∧ r.ok = true ∧
        r.json = Except.ok j ∧ getDivisions rt filters = Except.ok (ClientResult.body j))) ∧
    ((∃ msg, getDivisionById rt id =
        Except.ok (ClientResult.structured false msg DataShape.null)) ∨
      (∃ url r j, rt.fetch url = FetchOutcome.response r ∧ r.ok = true ∧
        r.json = Except.ok j ∧ getDivisionById rt id = Except.ok (ClientResult.body j))) ∧
    ((∃ msg, getZones rt filters =
        Except.ok (ClientResult.structured false msg DataShape.emptyList)) ∨
      (∃ url r j, rt.fetch url = FetchOutcome.response r ∧ r.ok = true ∧
        r.json = Except.ok j ∧ getZones rt filters = Except.ok (ClientResult.body j))) ∧
    ((∃ msg, getZoneById rt id =
        Except.ok (ClientResult.structured false msg DataShape.null)) ∨
      (∃ url r j, rt.fetch url = FetchOutcome.response r ∧ r.ok = true ∧
        r.json = Except.ok j ∧ getZoneById rt id = Except.ok (ClientResult.body j))) := by
  refine ⟨?_, ?_, ?_, ?_⟩
  · apply listCall_cases
    cases filters with
    | undefined =>
      rcases fetchList_cases rt (apiUrl rt ++ "/divisions" ++ querySuffix rt []) with h | h
      · exact Or.inl h
      · exact Or.inr ⟨_, h⟩
    | null => exact Or.inl ⟨_, rfl⟩
    | object active department_id =>
      dsimp only
      cases h1 : activePair active with
      | error e => exact Or.inl ⟨e, rfl⟩
      | ok p1 =>
        cases h2 : departmentPair department_id with
        | error e => exact Or.inl ⟨e, rfl⟩
        | ok p2 =>
          rcases fetchList_cases rt (apiUrl rt ++ "/divisions" ++ querySuffix rt (p1 ++ p2))
            with h | h
          · exact Or.inl h
          · exact Or.inr ⟨_, h⟩
  · apply oneCall_cases rt _ "Division not found"
    dsimp only
    cases h1 : templateValue id with
    | error e => exact Or.inl (Or.inl ⟨e, rfl⟩)
    | ok text =>
      rcases fetchOne_cases rt (apiUrl rt ++ "/divisions/" ++ text) "Division not found"
        with h | h
      · exact Or.inl h
      · exact Or.inr ⟨_, h⟩
  · apply listCall_cases
    cases filters with
    | undefined =>
      rcases fetchList_cases rt (apiUrl rt ++ "/zones" ++ querySuffix rt []) with h | h
      · exact Or.inl h
      · exact Or.inr ⟨_, h⟩
    | null => exact Or.inl ⟨_, rfl⟩
    | object active department_id =>
      dsimp only
      cases h1 : activePair active with
      | error e => exact Or.inl ⟨e, rfl⟩
      | ok p1 =>
        rcases fetchList_cases rt (apiUrl rt ++ "/zones" ++ querySuffix rt p1) with h | h
        · exact Or.inl h
        · exact Or.inr ⟨_, h⟩
  · apply oneCall_cases rt _ "Zone not found"
    dsimp only
    cases h1 : templateValue id with
    | error e => exact Or.inl (Or.inl ⟨e, rfl⟩)
    | ok text =>
      rcases fetchOne_cases rt (apiUrl rt ++ "/zones/" ++ text) "Zone not found" with h | h
      · exact Or.inl h
      · exact Or.inr ⟨_, h⟩

/-- C13: the four client calls never throw, whatever the argument and the
runtime; and when every outbound call fails (network error, timeout abort, or a
status that is not OK, with or without a parsable error body) they resolve with
the structured object `success: false`, an error message and `data`, which is
the empty list for the two list calls and `null` for the two by-id calls. -/
theorem client_degrades_gracefully (rt : Runtime) (filters : FiltersArg)
    (id : Option JsonValue) :
    ((∃ r, getDivisions rt filters = Except.ok r) ∧
     (∃ r, getDivisionById rt id = Except.ok r) ∧
     (∃ r, getZones rt filters = Except.ok r) ∧
     (∃ r, getZoneById rt id = Except.ok r)) ∧
    ((∀ url, (rt.fetch url).isFailure = true) →
     (∃ msg, getDivisions rt filters =
        Except.ok (ClientResult.structured false msg DataShape.emptyList)) ∧
     (∃ msg, getDivisionById rt id =
        Except.ok (ClientResult.structured false msg DataShape.null)) ∧
     (∃ msg, getZones rt filters =
        Except.ok (ClientResult.structured false msg DataShape.emptyList)) ∧
     (∃ msg, getZoneById rt id =
        Except.ok (ClientResult.structured false msg DataShape.null))) := by
  refine ⟨⟨tryCatch_ok _ _, tryCatch_ok _ _, tryCatch_ok _ _, tryCatch_ok _ _⟩, ?_⟩
  intro hfail
  refine ⟨?_, ?_, ?_, ?_⟩
  · apply listCall_degraded
    cases filters with
    | undefined => exact fetchList_failure rt _ (hfail _)
    | null => exact ⟨_, rfl⟩
    | object active department_id =>
      dsimp only
      cases h1 : activePair active with
      | error e => exact ⟨e, rfl⟩
      | ok p1 =>
        cases h2 : departmentPair department_id with
        | error e => exact ⟨e, rfl⟩
        | ok p2 => exact fetchList_failure rt _ (hfail _)
  · apply oneCall_degraded _ "Division not found"
    dsimp only
    cases h1 : templateValue id with
    | error e => exact Or.inl ⟨e, rfl⟩
    | ok text => exact fetchOne_failure rt _ _ (hfail _)
  · apply listCall_degraded
    cases filters with
    | undefined => exact fetchList_failure rt _ (hfail _)
    | null => exact ⟨_, rfl⟩
    | object active department_id =>
      dsimp only
      cases h1 : activePair active with
      | error e => exact ⟨e, rfl⟩
      | ok p1 => exact fetchList_failure rt _ (hfail _)
  · apply oneCall_degraded _ "Zone not found"
    dsimp only
    cases h1 : templateValue id with
    | error e => exact Or.inl ⟨e, rfl⟩
    | ok text => exact fetchOne_failure rt _ _ (hfail _)

/-- Witness of the failure part of `client_degrades_gracefully`: with the
sibling system answering 503 without a JSON body, the list call resolves with
the structured object whose data is the empty list. -/
theorem client_degrades_gracefully_witness :
    (∀ url, (downRuntime.fetch url).isFailure = true) ∧
    ∃ msg, getDivisions downRuntime FiltersArg.undefined =
      Except.ok (ClientResult.structured false msg DataShape.emptyList) :=
  ⟨fun _ => rfl,
   ((client_degrades_gracefully downRuntime FiltersArg.undefined none).2 (fun _ => rfl)).1⟩

/-- The message of the degraded result for a 503 without a JSON body. -/
theorem getDivisions_down :
    getDivisions downRuntime FiltersArg.undefined =
      Except.ok (ClientResult.structured false "E-Filing API error: Unknown error"
        DataShape.emptyList) := by
  rfl

end VideoApi
